import Mathlib

/-!
Verification development for the Krystal contract deployment script
(`scripts/deployLogic.ts`).

The script is embedded shallowly:

* Addresses, calldata and transactions are symbolic Lean data.
* Interactions with the blockchain (reads, transaction submission and
  confirmation, contract deployment, source verification) are mediated by a
  `Chain` record whose fields give the outcome of each interaction; a fully
  successful chain is built from a `ChainView` by `okChain`.
* Each script function becomes a function into a writer/error monad `EW`:
  the result is the list of emitted events (transaction submissions,
  confirmations, deployments, verification attempts) together with either a
  value or the first error, which aborts the run as in the script.
-/

set_option autoImplicit false

namespace KrystalDeploy

abbrev Address := String
abbrev Err := String

/-- JS `toLowerCase` restricted to ASCII, as applied to hex address strings. -/
def lowerChar (c : Char) : Char :=
  if 'A' ≤ c ∧ c ≤ 'Z' then Char.ofNat (c.toNat + 32) else c

/-- Lower-case an address string (`addr.toLowerCase()` in the script). -/
def lower (s : String) : String := String.mk (s.data.map lowerChar)

/-- JS `String.prototype.slice(a, b)` for `0 ≤ a ≤ b` (the script only uses
`compoundData.slice(2, 40)`). -/
def jsSlice (s : String) (a b : Nat) : String :=
  String.mk ((s.data.drop a).take (b - a))

/-- Constructor arguments passed to `factory.deploy(...args)`. -/
inductive Arg where
  | addr (a : Address)
  | addrList (l : List Address)
  deriving DecidableEq, Repr

/-- Symbolic calldata of the populated transactions built by the script
(`contract.populateTransaction.<method>(...)`). -/
inductive TxData where
  | updateNewImplementation (impl : Address)
  | updateSupportedPlatformWallets (addrs : List Address) (isAdd : Bool)
  | updateSupportedSwaps (addrs : List Address) (isAdd : Bool)
  | updateSupportedLendings (addrs : List Address) (isAdd : Bool)
  | updateUniRouters (addrs : List Address) (isAdd : Bool)
  | updateKyberProxy (proxy : Address)
  | updateDmmRouter (router : Address)
  | updateCompoundData (compTroller cNative : Address) (cTokens : List Address)
  | updateAaveV1Data (poolV1 poolCoreV1 : Address) (referralCode : Nat) (tokens : List Address)
  | updateAaveV2Data (provider poolV2 : Address) (referralCode : Nat) (weth : Address)
      (tokens : List Address)
  | updateProxyContract (proxy : Address)
  deriving DecidableEq, Repr

/-- A populated transaction: destination contract, optional value, calldata.
(The script also sets a constant `gasLimit` override and optionally a `from`
override; neither affects any property below.) -/
structure PopTxn where
  toAddr : Option Address
  value : Option Nat
  data : TxData
  deriving DecidableEq, Repr

/-- Gnosis Safe operation type (`OperationType` of the safe SDK). -/
inductive SafeOp where
  | Call
  | DelegateCall
  deriving DecidableEq, Repr

/-- The zero address constant (`zeroAddress` from the test helpers). -/
def zeroAddress : Address := "0x0000000000000000000000000000000000000000"

/-- A transaction as actually sent: either relayed through the Gnosis Safe at
the configured multisig address, or sent directly by the signer with the given
index (the script always uses signer `0`). -/
inductive SignedTxn where
  | viaSafe (safe : Address) (operation : SafeOp) (toAddr : Address) (value : String) (data : TxData)
  | direct (signerIdx : Nat) (txn : PopTxn)
  deriving DecidableEq, Repr

/-- The dispatch performed by `executeTxn` (deployLogic.ts:575-593): with a
multisig configured the transaction is relayed through the safe as a `Call`
with the transaction's `to` (defaulting to the zero address), `value`
(defaulting to `'0'`) and `data`; otherwise it is sent directly by the first
signer. -/
def signTxn (multisig : Option Address) (txn : PopTxn) : SignedTxn :=
  match multisig with
  | some safe =>
      .viaSafe safe .Call (txn.toAddr.getD zeroAddress)
        ((txn.value.map (fun n => toString n)).getD "0") txn.data
  | none => .direct 0 txn

/-- Observable events of a script run. -/
inductive Event where
  | deploySubmit (name : String) (args : List Arg) (addr : Address)
  | deployConfirmEv (name : String) (addr : Address)
  | verifyOkEv (addr : Address)
  | verifyFailedLog (addr : Address) (e : Err)
  | submit (st : SignedTxn)
  | confirmed (st : SignedTxn)
  deriving DecidableEq, Repr

/-- Writer/error monad of the embedding: emitted events so far, and either a
result or the first error (which aborts the run). -/
def EW (α : Type) : Type := List Event × Except Err α

def EW.pure {α : Type} (a : α) : EW α := ([], .ok a)

def EW.bind {α β : Type} (x : EW α) (f : α → EW β) : EW β :=
  match x with
  | (tr, .error e) => (tr, .error e)
  | (tr, .ok a) => (tr ++ (f a).1, (f a).2)

instance : Monad EW where
  pure := EW.pure
  bind := EW.bind

/-- Run a chain interaction, emitting no event. -/
def EW.lift {α : Type} (x : Except Err α) : EW α := ([], x)

/-- Record an event. -/
def EW.tell (e : Event) : EW Unit := ([e], .ok ())

theorem EW.bind_eq {α β : Type} (x : EW α) (f : α → EW β) : x >>= f = EW.bind x f := rfl

theorem EW.pure_eq {α : Type} (a : α) : (Pure.pure a : EW α) = ([], .ok a) := rfl

@[simp] theorem EW.bind_ok {α β : Type} (tr : List Event) (a : α) (f : α → EW β) :
    EW.bind (tr, .ok a) f = (tr ++ (f a).1, (f a).2) := rfl

@[simp] theorem EW.bind_error {α β : Type} (tr : List Event) (e : Err) (f : α → EW β) :
    EW.bind (tr, .error e) f = (tr, .error e) := rfl

@[simp] theorem EW.lift_ok {α : Type} (a : α) : EW.lift (.ok a) = ([], Except.ok a) := rfl

@[simp] theorem EW.lift_error {α : Type} (e : Err) :
    (EW.lift (.error e) : EW α) = ([], Except.error e) := rfl

/-! ### Network configuration (`scripts/config`) -/

structure UniswapConfig where
  routers : List Address
  deriving DecidableEq, Repr

structure KyberProxyConfig where
  proxy : Address
  deriving DecidableEq, Repr

structure KyberDmmConfig where
  router : Address
  deriving DecidableEq, Repr

structure CompoundConfig where
  compTroller : Address
  cNative : Address
  cTokens : List Address
  deriving DecidableEq, Repr

structure AaveV1Config where
  poolV1 : Address
  poolCoreV1 : Address
  referralCode : Nat
  tokens : List Address
  deriving DecidableEq, Repr

structure AaveV2Config where
  provider : Address
  poolV2 : Address
  referralCode : Nat
  weth : Address
  tokens : List Address
  deriving DecidableEq, Repr

/-- Per-network configuration record (the fields of `IConfig` used by
`deployLogic.ts`). -/
structure NetworkCfg where
  autoVerifyContract : Bool
  supportedWallets : List Address
  uniswap : Option UniswapConfig
  uniswapV3 : Option UniswapConfig
  kyberProxy : Option KyberProxyConfig
  kyberDmm : Option KyberDmmConfig
  compound : Option CompoundConfig
  aaveV1 : Option AaveV1Config
  aaveV2 : Option AaveV2Config
  aaveAMM : Option AaveV2Config
  deriving DecidableEq, Repr

/-! ### Deployed / existing contract records -/

structure SwapContracts where
  uniSwap : Option Address
  uniSwapV3 : Option Address
  kyberProxy : Option Address
  kyberDmm : Option Address
  deriving DecidableEq, Repr

structure LendingContracts where
  compoundLending : Option Address
  aaveV1 : Option Address
  aaveV2 : Option Address
  aaveAMM : Option Address
  deriving DecidableEq, Repr

/-- The `KrystalContracts` record, with contracts represented by their
addresses. -/
structure KrystalContracts where
  smartWalletImplementation : Address
  smartWalletProxy : Address
  fetchTokenBalances : Address
  fetchAaveDataWrapper : Address
  swapContracts : SwapContracts
  lendingContracts : LendingContracts
  deriving DecidableEq, Repr

/-- `Object.values(swapContracts).filter((c) => c).map((c) => c.address)`. -/
def SwapContracts.addresses (s : SwapContracts) : List Address :=
  [s.uniSwap, s.uniSwapV3, s.kyberProxy, s.kyberDmm].reduceOption

/-- `Object.values(lendingContracts).filter((c) => c).map((c) => c.address)`. -/
def LendingContracts.addresses (l : LendingContracts) : List Address :=
  [l.compoundLending, l.aaveV1, l.aaveV2, l.aaveAMM].reduceOption

structure ExistingSwapContracts where
  uniSwap : Option Address := none
  uniSwapV3 : Option Address := none
  kyberProxy : Option Address := none
  kyberDmm : Option Address := none
  deriving DecidableEq, Repr

structure ExistingLendingContracts where
  compoundLending : Option Address := none
  aaveV1Lending : Option Address := none
  aaveV2Lending : Option Address := none
  aaveAMMLending : Option Address := none
  deriving DecidableEq, Repr

/-- The optional `existingContract` record passed to `deploy`. -/
structure ExistingContracts where
  smartWalletImplementation : Option Address := none
  fetchTokenBalances : Option Address := none
  fetchAaveDataWrapper : Option Address := none
  smartWalletProxy : Option Address := none
  swapContracts : Option ExistingSwapContracts := none
  lendingContracts : Option ExistingLendingContracts := none
  deriving DecidableEq, Repr

/-! ### The chain -/

/-- Outcomes of every chain interaction the script performs. Reads return the
current on-chain value or an error; submissions, confirmations, deployments and
verifications succeed or fail. -/
structure Chain where
  implAddr : Except Err Address
  supportedPlatformWallets : Except Err (List Address)
  supportedSwaps : Except Err (List Address)
  supportedLendings : Except Err (List Address)
  proxyContractOf : Address → Except Err Address
  uniRouters : Except Err (List Address)
  uniV3Routers : Except Err (List Address)
  kyberProxyAddr : Except Err Address
  dmmRouter : Except Err Address
  compoundData : Except Err String
  deployOutcome : String → Except Err Address
  confirmDeploy : String → Except Err Unit
  verifyOutcome : Address → Except Err Unit
  sendTxn : SignedTxn → Except Err Unit
  confirmTxn : SignedTxn → Except Err Unit

/-- A snapshot of on-chain state for a run in which every interaction
succeeds. The `aave*Data` fields record state of the Aave lending adapters;
the script never reads them. -/
structure ChainView where
  implAddr : Address
  supportedPlatformWallets : List Address
  supportedSwaps : List Address
  supportedLendings : List Address
  proxyContractOf : Address → Address
  uniRouters : List Address
  uniV3Routers : List Address
  kyberProxyAddr : Address
  dmmRouter : Address
  compoundData : String
  deployAddr : String → Address
  aaveV1Data : AaveV1Config
  aaveV2Data : AaveV2Config
  aaveAMMData : AaveV2Config

/-- The chain on which every interaction succeeds, with reads answered from
the view `v` and contract deployments landing at `v.deployAddr name`. -/
def okChain (v : ChainView) : Chain where
  implAddr := .ok v.implAddr
  supportedPlatformWallets := .ok v.supportedPlatformWallets
  supportedSwaps := .ok v.supportedSwaps
  supportedLendings := .ok v.supportedLendings
  proxyContractOf := fun a => .ok (v.proxyContractOf a)
  uniRouters := .ok v.uniRouters
  uniV3Routers := .ok v.uniV3Routers
  kyberProxyAddr := .ok v.kyberProxyAddr
  dmmRouter := .ok v.dmmRouter
  compoundData := .ok v.compoundData
  deployOutcome := fun name => .ok (v.deployAddr name)
  confirmDeploy := fun _ => .ok ()
  verifyOutcome := fun _ => .ok ()
  sendTxn := fun _ => .ok ()
  confirmTxn := fun _ => .ok ()

@[simp] theorem okChain_implAddr (v : ChainView) : (okChain v).implAddr = .ok v.implAddr := rfl
@[simp] theorem okChain_supportedPlatformWallets (v : ChainView) :
    (okChain v).supportedPlatformWallets = .ok v.supportedPlatformWallets := rfl
@[simp] theorem okChain_supportedSwaps (v : ChainView) :
    (okChain v).supportedSwaps = .ok v.supportedSwaps := rfl
@[simp] theorem okChain_supportedLendings (v : ChainView) :
    (okChain v).supportedLendings = .ok v.supportedLendings := rfl
@[simp] theorem okChain_proxyContractOf (v : ChainView) (a : Address) :
    (okChain v).proxyContractOf a = .ok (v.proxyContractOf a) := rfl
@[simp] theorem okChain_uniRouters (v : ChainView) : (okChain v).uniRouters = .ok v.uniRouters := rfl
@[simp] theorem okChain_uniV3Routers (v : ChainView) :
    (okChain v).uniV3Routers = .ok v.uniV3Routers := rfl
@[simp] theorem okChain_kyberProxyAddr (v : ChainView) :
    (okChain v).kyberProxyAddr = .ok v.kyberProxyAddr := rfl
@[simp] theorem okChain_dmmRouter (v : ChainView) : (okChain v).dmmRouter = .ok v.dmmRouter := rfl
@[simp] theorem okChain_compoundData (v : ChainView) :
    (okChain v).compoundData = .ok v.compoundData := rfl
@[simp] theorem okChain_deployOutcome (v : ChainView) (name : String) :
    (okChain v).deployOutcome name = .ok (v.deployAddr name) := rfl
@[simp] theorem okChain_confirmDeploy (v : ChainView) (name : String) :
    (okChain v).confirmDeploy name = .ok () := rfl
@[simp] theorem okChain_verifyOutcome (v : ChainView) (a : Address) :
    (okChain v).verifyOutcome a = .ok () := rfl
@[simp] theorem okChain_sendTxn (v : ChainView) (st : SignedTxn) :
    (okChain v).sendTxn st = .ok () := rfl
@[simp] theorem okChain_confirmTxn (v : ChainView) (st : SignedTxn) :
    (okChain v).confirmTxn st = .ok () := rfl

/-! ### The script -/

/-- `printInfo` (deployLogic.ts:537-543): await one confirmation of the
transaction, then log. -/
def printInfo (ch : Chain) (st : SignedTxn) : EW Unit := do
  EW.lift (ch.confirmTxn st)
  EW.tell (.confirmed st)

/-- `executeTxn` (deployLogic.ts:575-593): sign/relay the populated
transaction according to the multisig setting and submit it. -/
def executeTxn (ch : Chain) (multisig : Option Address) (txn : PopTxn) : EW SignedTxn := do
  let st := signTxn multisig txn
  EW.lift (ch.sendTxn st)
  EW.tell (.submit st)
  EW.pure st

/-- The set difference computed before each address-set update
(deployLogic.ts:316-319 and analogues): both lists are lower-cased, then
`toBeRemoved` keeps the existing entries not in the config and `toBeAdded`
keeps the config entries not on chain. -/
def diffLists (existing config : List Address) : List Address × List Address :=
  let e := existing.map lower
  let c := config.map lower
  (e.filter (fun a => !(c.contains a)), c.filter (fun a => !(e.contains a)))

/-- `updateAddressSet` (deployLogic.ts:504-535): one removal transaction when
`toBeRemoved` is non-empty, then one addition transaction when `toBeAdded` is
non-empty, each submitted and confirmed in order. -/
def updateAddressSet (ch : Chain) (multisig : Option Address)
    (mk : List Address → Bool → PopTxn)
    (toBeRemoved toBeAdded : List Address) : EW Unit := do
  if toBeRemoved.length ≠ 0 then
    let st ← executeTxn ch multisig (mk toBeRemoved false)
    printInfo ch st
  if toBeAdded.length ≠ 0 then
    let st ← executeTxn ch multisig (mk toBeAdded true)
    printInfo ch st

/-- Populated transaction for `updateSupportedPlatformWallets` on the proxy. -/
def mkWalletsTxn (c : KrystalContracts) : List Address → Bool → PopTxn :=
  fun l b => ⟨some c.smartWalletProxy, none, .updateSupportedPlatformWallets l b⟩

/-- Populated transaction for `updateSupportedSwaps` on the proxy. -/
def mkSwapsTxn (c : KrystalContracts) : List Address → Bool → PopTxn :=
  fun l b => ⟨some c.smartWalletProxy, none, .updateSupportedSwaps l b⟩

/-- Populated transaction for `updateSupportedLendings` on the proxy. -/
def mkLendingsTxn (c : KrystalContracts) : List Address → Bool → PopTxn :=
  fun l b => ⟨some c.smartWalletProxy, none, .updateSupportedLendings l b⟩

/-- Populated transaction for `updateUniRouters` on a UniSwap/UniSwapV3 clone
at address `u`. -/
def mkUniTxn (u : Address) : List Address → Bool → PopTxn :=
  fun l b => ⟨some u, none, .updateUniRouters l b⟩

/-- `updateProxy` (deployLogic.ts:297-349): update the implementation if it
differs (compared verbatim), then reconcile the supported platform wallets,
swaps and lendings address sets. -/
def updateProxy (ch : Chain) (multisig : Option Address) (cfg : NetworkCfg)
    (c : KrystalContracts) : EW Unit := do
  let currentImpl ← EW.lift ch.implAddr
  if currentImpl = c.smartWalletImplementation then EW.pure ()
  else do
    let st ← executeTxn ch multisig
      ⟨some c.smartWalletProxy, none, .updateNewImplementation c.smartWalletImplementation⟩
    printInfo ch st
  let existingW ← EW.lift ch.supportedPlatformWallets
  let dw := diffLists existingW cfg.supportedWallets
  updateAddressSet ch multisig (mkWalletsTxn c) dw.1 dw.2
  let existingS ← EW.lift ch.supportedSwaps
  let ds := diffLists existingS c.swapContracts.addresses
  updateAddressSet ch multisig (mkSwapsTxn c) ds.1 ds.2
  let existingL ← EW.lift ch.supportedLendings
  let dl := diffLists existingL c.lendingContracts.addresses
  updateAddressSet ch multisig (mkLendingsTxn c) dl.1 dl.2

/-- One iteration of the `updateChildContracts` loop (deployLogic.ts:357-375):
for a present child contract, link it to the proxy unless already linked
(compared lower-cased). -/
def updateChildContract (ch : Chain) (multisig : Option Address)
    (proxyAddr : Address) (child : Option Address) : EW Unit :=
  match child with
  | none => EW.pure ()
  | some a => do
      let cur ← EW.lift (ch.proxyContractOf a)
      if lower cur = lower proxyAddr then EW.pure ()
      else do
        let st ← executeTxn ch multisig ⟨some a, none, .updateProxyContract proxyAddr⟩
        printInfo ch st

/-- `updateChildContracts` (deployLogic.ts:351-376): the loop over
`{...swapContracts, ...lendingContracts}` in insertion order. -/
def updateChildContracts (ch : Chain) (multisig : Option Address)
    (c : KrystalContracts) : EW Unit := do
  updateChildContract ch multisig c.smartWalletProxy c.swapContracts.uniSwap
  updateChildContract ch multisig c.smartWalletProxy c.swapContracts.uniSwapV3
  updateChildContract ch multisig c.smartWalletProxy c.swapContracts.kyberProxy
  updateChildContract ch multisig c.smartWalletProxy c.swapContracts.kyberDmm
  updateChildContract ch multisig c.smartWalletProxy c.lendingContracts.compoundLending
  updateChildContract ch multisig c.smartWalletProxy c.lendingContracts.aaveV1
  updateChildContract ch multisig c.smartWalletProxy c.lendingContracts.aaveV2
  updateChildContract ch multisig c.smartWalletProxy c.lendingContracts.aaveAMM

/-- `updateUniSwap` (deployLogic.ts:378-389): reconcile the router set of the
UniSwap clone against the configured routers. -/
def updateUniSwap (ch : Chain) (multisig : Option Address)
    (cfg : Option UniswapConfig) (uniSwap : Option Address) : EW Unit :=
  match uniSwap, cfg with
  | some u, some ucfg => do
      let existing ← EW.lift ch.uniRouters
      let d := diffLists existing ucfg.routers
      updateAddressSet ch multisig (mkUniTxn u) d.1 d.2
  | _, _ => EW.pure ()

/-- `updateUniSwapV3` (deployLogic.ts:391-402): same as `updateUniSwap` for
the UniSwapV3 clone. -/
def updateUniSwapV3 (ch : Chain) (multisig : Option Address)
    (cfg : Option UniswapConfig) (uniSwapV3 : Option Address) : EW Unit :=
  match uniSwapV3, cfg with
  | some u, some ucfg => do
      let existing ← EW.lift ch.uniV3Routers
      let d := diffLists existing ucfg.routers
      updateAddressSet ch multisig (mkUniTxn u) d.1 d.2
  | _, _ => EW.pure ()

/-- `updateKyberProxy` (deployLogic.ts:404-418): update the kyber proxy
address unless already equal (compared lower-cased). -/
def updateKyberProxy (ch : Chain) (multisig : Option Address)
    (cfg : Option KyberProxyConfig) (kyberProxy : Option Address) : EW Unit :=
  match kyberProxy, cfg with
  | some k, some kcfg => do
      let cur ← EW.lift ch.kyberProxyAddr
      if lower cur = lower kcfg.proxy then EW.pure ()
      else do
        let st ← executeTxn ch multisig ⟨some k, none, .updateKyberProxy kcfg.proxy⟩
        printInfo ch st
  | _, _ => EW.pure ()

/-- `updateKyberDmm` (deployLogic.ts:420-434): update the DMM router unless
already equal (compared lower-cased). -/
def updateKyberDmm (ch : Chain) (multisig : Option Address)
    (cfg : Option KyberDmmConfig) (kyberDmm : Option Address) : EW Unit :=
  match kyberDmm, cfg with
  | some k, some kcfg => do
      let cur ← EW.lift ch.dmmRouter
      if lower cur = lower kcfg.router then EW.pure ()
      else do
        let st ← executeTxn ch multisig ⟨some k, none, .updateDmmRouter kcfg.router⟩
        printInfo ch st
  | _, _ => EW.pure ()

/-- `updateCompoundLending` (deployLogic.ts:436-459): read `compoundData`,
extract `'0x' + compoundData.slice(2, 40)` as the current comptroller and emit
an `updateCompoundData` transaction unless it equals the configured
`compTroller` verbatim. -/
def updateCompoundLending (ch : Chain) (multisig : Option Address)
    (cfg : Option CompoundConfig) (compoundLending : Option Address) : EW Unit :=
  match compoundLending, cfg with
  | some c, some ccfg => do
      let compoundData ← EW.lift ch.compoundData
      let currentComptroller := "0x" ++ jsSlice compoundData 2 40
      if currentComptroller = ccfg.compTroller then EW.pure ()
      else do
        let st ← executeTxn ch multisig
          ⟨some c, none, .updateCompoundData ccfg.compTroller ccfg.cNative ccfg.cTokens⟩
        printInfo ch st
  | _, _ => EW.pure ()

/-- `updateAaveV1Lending` (deployLogic.ts:461-478): when the protocol is
enabled, submit `updateAaveData` unconditionally (no on-chain read). -/
def updateAaveV1Lending (ch : Chain) (multisig : Option Address)
    (cfg : Option AaveV1Config) (aaveV1Lending : Option Address) : EW Unit :=
  match aaveV1Lending, cfg with
  | some a, some acfg => do
      let st ← executeTxn ch multisig
        ⟨some a, none, .updateAaveV1Data acfg.poolV1 acfg.poolCoreV1 acfg.referralCode acfg.tokens⟩
      printInfo ch st
  | _, _ => EW.pure ()

/-- `updateAaveV2Lending` (deployLogic.ts:480-502): when the protocol is
enabled, submit `updateAaveData` unconditionally (no on-chain read). -/
def updateAaveV2Lending (ch : Chain) (multisig : Option Address)
    (cfg : Option AaveV2Config) (aaveV2Lending : Option Address) : EW Unit :=
  match aaveV2Lending, cfg with
  | some a, some acfg => do
      let st ← executeTxn ch multisig
        ⟨some a, none,
          .updateAaveV2Data acfg.provider acfg.poolV2 acfg.referralCode acfg.weth acfg.tokens⟩
      printInfo ch st
  | _, _ => EW.pure ()

/-- `deployContract` (deployLogic.ts:256-295): with an existing address the
factory is attached and returned at once; otherwise the contract is deployed,
its deployment transaction confirmed, and, when `autoVerify` is set, source
verification is attempted once inside a try/catch whose handler only logs. -/
def deployContract (ch : Chain) (autoVerify : Bool) (contractName : String)
    (contractAddress : Option Address) (args : List Arg) : EW Address :=
  match contractAddress with
  | some addr => EW.pure addr
  | none => do
      let addr ← EW.lift (ch.deployOutcome contractName)
      EW.tell (.deploySubmit contractName args addr)
      EW.lift (ch.confirmDeploy contractName)
      EW.tell (.deployConfirmEv contractName addr)
      if autoVerify then
        match ch.verifyOutcome addr with
        | .ok _ => EW.tell (.verifyOkEv addr)
        | .error e => EW.tell (.verifyFailedLog addr e)
      else EW.pure ()
      EW.pure addr

/-- The `!networkConfig.x ? undefined : await deployContract(...)` pattern of
`deployContracts`: deploy only when the protocol is configured. -/
def deployOptional {β : Type} (ch : Chain) (autoVerify : Bool) (contractName : String)
    (contractAddress : Option Address) (cfgOn : Option β) (args : β → List Arg) :
    EW (Option Address) :=
  match cfgOn with
  | none => EW.pure none
  | some b => do
      let a ← deployContract ch autoVerify contractName contractAddress (args b)
      EW.pure (some a)

/-- `deployContracts` (deployLogic.ts:115-254): deploy (or attach) every
contract in source order and assemble the `KrystalContracts` record. -/
def deployContracts (ch : Chain) (cfg : NetworkCfg) (ex : Option ExistingContracts)
    (contractAdmin : Address) : EW KrystalContracts := do
  let smartWalletImplementation ← deployContract ch cfg.autoVerifyContract
    "SmartWalletImplementation" (ex.bind (·.smartWalletImplementation)) [.addr contractAdmin]
  let fetchTokenBalances ← deployContract ch cfg.autoVerifyContract
    "FetchTokenBalances" (ex.bind (·.fetchTokenBalances)) [.addr contractAdmin]
  let fetchAaveDataWrapper ← deployContract ch cfg.autoVerifyContract
    "FetchAaveDataWrapper" (ex.bind (·.fetchAaveDataWrapper)) [.addr contractAdmin]
  let uniSwap ← deployOptional ch cfg.autoVerifyContract "UniSwap"
    ((ex.bind (·.swapContracts)).bind (·.uniSwap)) cfg.uniswap
    (fun u => [.addr contractAdmin, .addrList u.routers])
  let uniSwapV3 ← deployOptional ch cfg.autoVerifyContract "UniSwapV3"
    ((ex.bind (·.swapContracts)).bind (·.uniSwapV3)) cfg.uniswapV3
    (fun u => [.addr contractAdmin, .addrList u.routers])
  let kyberProxy ← deployOptional ch cfg.autoVerifyContract "KyberProxy"
    ((ex.bind (·.swapContracts)).bind (·.kyberProxy)) cfg.kyberProxy
    (fun k => [.addr contractAdmin, .addr k.proxy])
  let kyberDmm ← deployOptional ch cfg.autoVerifyContract "KyberDmm"
    ((ex.bind (·.swapContracts)).bind (·.kyberDmm)) cfg.kyberDmm
    (fun k => [.addr contractAdmin, .addr k.router])
  let compoundLending ← deployOptional ch cfg.autoVerifyContract "CompoundLending"
    ((ex.bind (·.lendingContracts)).bind (·.compoundLending)) cfg.compound
    (fun _ => [.addr contractAdmin])
  let aaveV1 ← deployOptional ch cfg.autoVerifyContract "AaveV1Lending"
    ((ex.bind (·.lendingContracts)).bind (·.aaveV1Lending)) cfg.aaveV1
    (fun _ => [.addr contractAdmin])
  let aaveV2 ← deployOptional ch cfg.autoVerifyContract "AaveV2Lending"
    ((ex.bind (·.lendingContracts)).bind (·.aaveV2Lending)) cfg.aaveV2
    (fun _ => [.addr contractAdmin])
  let aaveAMM ← deployOptional ch cfg.autoVerifyContract "AaveV2Lending"
    ((ex.bind (·.lendingContracts)).bind (·.aaveAMMLending)) cfg.aaveAMM
    (fun _ => [.addr contractAdmin])
  let swapContracts : SwapContracts := ⟨uniSwap, uniSwapV3, kyberProxy, kyberDmm⟩
  let lendingContracts : LendingContracts := ⟨compoundLending, aaveV1, aaveV2, aaveAMM⟩
  let smartWalletProxy ← deployContract ch cfg.autoVerifyContract
    "SmartWalletProxy" (ex.bind (·.smartWalletProxy))
    [.addr smartWalletImplementation, .addrList cfg.supportedWallets,
     .addrList swapContracts.addresses, .addrList lendingContracts.addresses]
  EW.pure ⟨smartWalletImplementation, smartWalletProxy, fetchTokenBalances,
    fetchAaveDataWrapper, swapContracts, lendingContracts⟩

/-- `deploy` (deployLogic.ts:52-113): deploy all contracts, then run every
update step in source order. -/
def deploy (ch : Chain) (cfg : NetworkCfg) (multisig : Option Address)
    (deployerAddress : Address) (ex : Option ExistingContracts) : EW KrystalContracts := do
  let c ← deployContracts ch cfg ex (multisig.getD deployerAddress)
  updateProxy ch multisig cfg c
  updateChildContracts ch multisig c
  updateUniSwap ch multisig cfg.uniswap c.swapContracts.uniSwap
  updateUniSwapV3 ch multisig cfg.uniswapV3 c.swapContracts.uniSwapV3
  updateKyberProxy ch multisig cfg.kyberProxy c.swapContracts.kyberProxy
  updateKyberDmm ch multisig cfg.kyberDmm c.swapContracts.kyberDmm
  updateCompoundLending ch multisig cfg.compound c.lendingContracts.compoundLending
  updateAaveV1Lending ch multisig cfg.aaveV1 c.lendingContracts.aaveV1
  updateAaveV2Lending ch multisig cfg.aaveV2 c.lendingContracts.aaveV2
  updateAaveV2Lending ch multisig cfg.aaveAMM c.lendingContracts.aaveAMM
  EW.pure c

/-- The module-level configuration lookup (deployLogic.ts:28-31):
`NetworkConfig[network.name]`, failing with `Missing deploy config for
<network name>` when absent. -/
def loadNetworkConfig (tbl : List (String × NetworkCfg)) (name : String) :
    Except Err NetworkCfg :=
  match tbl.lookup name with
  | some cfg => .ok cfg
  | none => .error ("Missing deploy config for " ++ name)

/-- A whole script run: the configuration lookup happens at module load,
before any chain interaction. -/
def runDeploy (tbl : List (String × NetworkCfg)) (name : String) (ch : Chain)
    (multisig : Option Address) (deployerAddress : Address)
    (ex : Option ExistingContracts) : EW KrystalContracts := do
  let cfg ← EW.lift (loadNetworkConfig tbl name)
  deploy ch cfg multisig deployerAddress ex

/-! ### Trace characterizations on a fully successful chain -/

/-- The events emitted by one address-set reconciliation: one removal
transaction carrying `toBeRemoved` when it is non-empty, then one addition
transaction carrying `toBeAdded` when it is non-empty, each submitted and
confirmed; nothing for an empty difference. -/
def reconTrace (multisig : Option Address) (mk : List Address → Bool → PopTxn)
    (toBeRemoved toBeAdded : List Address) : List Event :=
  (if toBeRemoved = [] then []
   else [.submit (signTxn multisig (mk toBeRemoved false)),
         .confirmed (signTxn multisig (mk toBeRemoved false))]) ++
  (if toBeAdded = [] then []
   else [.submit (signTxn multisig (mk toBeAdded true)),
         .confirmed (signTxn multisig (mk toBeAdded true))])

theorem executeTxn_ok (v : ChainView) (ms : Option Address) (txn : PopTxn) :
    executeTxn (okChain v) ms txn = ([.submit (signTxn ms txn)], .ok (signTxn ms txn)) := rfl

theorem printInfo_ok (v : ChainView) (st : SignedTxn) :
    printInfo (okChain v) st = ([.confirmed st], .ok ()) := rfl

theorem updateAddressSet_ok (v : ChainView) (ms : Option Address)
    (mk : List Address → Bool → PopTxn) (r a : List Address) :
    updateAddressSet (okChain v) ms mk r a = (reconTrace ms mk r a, .ok ()) := by
  cases r <;> cases a <;>
    simp [updateAddressSet, reconTrace, executeTxn, printInfo, signTxn, okChain,
      EW.bind_eq, EW.pure_eq, EW.tell, EW.lift, EW.pure]

/-- The implementation-update part of `updateProxy`: a transaction exactly
when the on-chain implementation differs (verbatim comparison). -/
def implPart (v : ChainView) (ms : Option Address) (c : KrystalContracts) : List Event :=
  if v.implAddr = c.smartWalletImplementation then []
  else
    [.submit (signTxn ms ⟨some c.smartWalletProxy, none,
        .updateNewImplementation c.smartWalletImplementation⟩),
     .confirmed (signTxn ms ⟨some c.smartWalletProxy, none,
        .updateNewImplementation c.smartWalletImplementation⟩)]

/-- The full event trace of `updateProxy` on a successful chain. -/
def proxyTrace (v : ChainView) (ms : Option Address) (cfg : NetworkCfg)
    (c : KrystalContracts) : List Event :=
  implPart v ms c
  ++ reconTrace ms (mkWalletsTxn c)
      (diffLists v.supportedPlatformWallets cfg.supportedWallets).1
      (diffLists v.supportedPlatformWallets cfg.supportedWallets).2
  ++ reconTrace ms (mkSwapsTxn c)
      (diffLists v.supportedSwaps c.swapContracts.addresses).1
      (diffLists v.supportedSwaps c.swapContracts.addresses).2
  ++ reconTrace ms (mkLendingsTxn c)
      (diffLists v.supportedLendings c.lendingContracts.addresses).1
      (diffLists v.supportedLendings c.lendingContracts.addresses).2

theorem updateProxy_ok (v : ChainView) (ms : Option Address) (cfg : NetworkCfg)
    (c : KrystalContracts) :
    updateProxy (okChain v) ms cfg c = (proxyTrace v ms cfg c, .ok ()) := by
  by_cases h : v.implAddr = c.smartWalletImplementation <;>
    simp [updateProxy, proxyTrace, implPart, h, updateAddressSet_ok, executeTxn_ok,
      printInfo_ok, EW.bind_eq, EW.pure_eq, EW.pure, List.append_assoc]

/-- The events of one child-contract linking step. -/
def childPart (v : ChainView) (ms : Option Address) (proxyAddr : Address)
    (child : Option Address) : List Event :=
  match child with
  | none => []
  | some a =>
      if lower (v.proxyContractOf a) = lower proxyAddr then []
      else
        [.submit (signTxn ms ⟨some a, none, .updateProxyContract proxyAddr⟩),
         .confirmed (signTxn ms ⟨some a, none, .updateProxyContract proxyAddr⟩)]

theorem updateChildContract_ok (v : ChainView) (ms : Option Address)
    (proxyAddr : Address) (child : Option Address) :
    updateChildContract (okChain v) ms proxyAddr child
      = (childPart v ms proxyAddr child, .ok ()) := by
  cases child with
  | none => rfl
  | some a =>
      by_cases h : lower (v.proxyContractOf a) = lower proxyAddr <;>
        simp [updateChildContract, childPart, h, executeTxn_ok, printInfo_ok,
          EW.bind_eq, EW.pure_eq, EW.pure]

/-- The full event trace of `updateChildContracts` on a successful chain. -/
def childTrace (v : ChainView) (ms : Option Address) (c : KrystalContracts) : List Event :=
  childPart v ms c.smartWalletProxy c.swapContracts.uniSwap
  ++ childPart v ms c.smartWalletProxy c.swapContracts.uniSwapV3
  ++ childPart v ms c.smartWalletProxy c.swapContracts.kyberProxy
  ++ childPart v ms c.smartWalletProxy c.swapContracts.kyberDmm
  ++ childPart v ms c.smartWalletProxy c.lendingContracts.compoundLending
  ++ childPart v ms c.smartWalletProxy c.lendingContracts.aaveV1
  ++ childPart v ms c.smartWalletProxy c.lendingContracts.aaveV2
  ++ childPart v ms c.smartWalletProxy c.lendingContracts.aaveAMM

theorem updateChildContracts_ok (v : ChainView) (ms : Option Address)
    (c : KrystalContracts) :
    updateChildContracts (okChain v) ms c = (childTrace v ms c, .ok ()) := by
  simp [updateChildContracts, childTrace, updateChildContract_ok, EW.bind_eq,
    EW.pure_eq, List.append_assoc]

/-- The event trace of `updateUniSwap` / `updateUniSwapV3` on a successful
chain, given the routers currently on chain. -/
def uniTrace (existing : List Address) (ms : Option Address)
    (cfg : Option UniswapConfig) (uni : Option Address) : List Event :=
  match uni, cfg with
  | some u, some ucfg =>
      reconTrace ms (mkUniTxn u)
        (diffLists existing ucfg.routers).1 (diffLists existing ucfg.routers).2
  | _, _ => []

theorem updateUniSwap_ok (v : ChainView) (ms : Option Address)
    (cfg : Option UniswapConfig) (uni : Option Address) :
    updateUniSwap (okChain v) ms cfg uni = (uniTrace v.uniRouters ms cfg uni, .ok ()) := by
  cases uni <;> cases cfg <;>
    simp [updateUniSwap, uniTrace, updateAddressSet_ok, EW.bind_eq,
      EW.pure_eq, EW.pure]

theorem updateUniSwapV3_ok (v : ChainView) (ms : Option Address)
    (cfg : Option UniswapConfig) (uni : Option Address) :
    updateUniSwapV3 (okChain v) ms cfg uni = (uniTrace v.uniV3Routers ms cfg uni, .ok ()) := by
  cases uni <;> cases cfg <;>
    simp [updateUniSwapV3, uniTrace, updateAddressSet_ok, EW.bind_eq,
      EW.pure_eq, EW.pure]

/-- The event trace of `updateKyberProxy` on a successful chain. -/
def kyberProxyTrace (v : ChainView) (ms : Option Address)
    (cfg : Option KyberProxyConfig) (kp : Option Address) : List Event :=
  match kp, cfg with
  | some k, some kcfg =>
      if lower v.kyberProxyAddr = lower kcfg.proxy then []
      else
        [.submit (signTxn ms ⟨some k, none, .updateKyberProxy kcfg.proxy⟩),
         .confirmed (signTxn ms ⟨some k, none, .updateKyberProxy kcfg.proxy⟩)]
  | _, _ => []

theorem updateKyberProxy_ok (v : ChainView) (ms : Option Address)
    (cfg : Option KyberProxyConfig) (kp : Option Address) :
    updateKyberProxy (okChain v) ms cfg kp = (kyberProxyTrace v ms cfg kp, .ok ()) := by
  cases kp with
  | none => cases cfg <;> rfl
  | some k =>
      cases cfg with
      | none => rfl
      | some kcfg =>
          by_cases h : lower v.kyberProxyAddr = lower kcfg.proxy <;>
            simp [updateKyberProxy, kyberProxyTrace, h, executeTxn_ok, printInfo_ok,
              EW.bind_eq, EW.pure_eq, EW.pure]

/-- The event trace of `updateKyberDmm` on a successful chain. -/
def kyberDmmTrace (v : ChainView) (ms : Option Address)
    (cfg : Option KyberDmmConfig) (kd : Option Address) : List Event :=
  match kd, cfg with
  | some k, some kcfg =>
      if lower v.dmmRouter = lower kcfg.router then []
      else
        [.submit (signTxn ms ⟨some k, none, .updateDmmRouter kcfg.router⟩),
         .confirmed (signTxn ms ⟨some k, none, .updateDmmRouter kcfg.router⟩)]
  | _, _ => []

theorem updateKyberDmm_ok (v : ChainView) (ms : Option Address)
    (cfg : Option KyberDmmConfig) (kd : Option Address) :
    updateKyberDmm (okChain v) ms cfg kd = (kyberDmmTrace v ms cfg kd, .ok ()) := by
  cases kd with
  | none => cases cfg <;> rfl
  | some k =>
      cases cfg with
      | none => rfl
      | some kcfg =>
          by_cases h : lower v.dmmRouter = lower kcfg.router <;>
            simp [updateKyberDmm, kyberDmmTrace, h, executeTxn_ok, printInfo_ok,
              EW.bind_eq, EW.pure_eq, EW.pure]

/-- The event trace of `updateCompoundLending` on a successful chain: the
comparison is between `'0x' ++ compoundData.slice(2, 40)` and the configured
`compTroller`, verbatim. -/
def compoundTrace (v : ChainView) (ms : Option Address)
    (cfg : Option CompoundConfig) (cl : Option Address) : List Event :=
  match cl, cfg with
  | some c, some ccfg =>
      if "0x" ++ jsSlice v.compoundData 2 40 = ccfg.compTroller then []
      else
        [.submit (signTxn ms ⟨some c, none,
            .updateCompoundData ccfg.compTroller ccfg.cNative ccfg.cTokens⟩),
         .confirmed (signTxn ms ⟨some c, none,
            .updateCompoundData ccfg.compTroller ccfg.cNative ccfg.cTokens⟩)]
  | _, _ => []

theorem updateCompoundLending_ok (v : ChainView) (ms : Option Address)
    (cfg : Option CompoundConfig) (cl : Option Address) :
    updateCompoundLending (okChain v) ms cfg cl = (compoundTrace v ms cfg cl, .ok ()) := by
  cases cl with
  | none => cases cfg <;> rfl
  | some c =>
      cases cfg with
      | none => rfl
      | some ccfg =>
          by_cases h : "0x" ++ jsSlice v.compoundData 2 40 = ccfg.compTroller <;>
            simp [updateCompoundLending, compoundTrace, h, executeTxn_ok, printInfo_ok,
              EW.bind_eq, EW.pure_eq, EW.pure]

/-- The event trace of `updateAaveV1Lending` on a successful chain: whenever
the protocol is enabled, exactly one `updateAaveData` transaction, emitted
without consulting any on-chain state. -/
def aaveV1Trace (ms : Option Address) (cfg : Option AaveV1Config)
    (al : Option Address) : List Event :=
  match al, cfg with
  | some a, some acfg =>
      [.submit (signTxn ms ⟨some a, none,
          .updateAaveV1Data acfg.poolV1 acfg.poolCoreV1 acfg.referralCode acfg.tokens⟩),
       .confirmed (signTxn ms ⟨some a, none,
          .updateAaveV1Data acfg.poolV1 acfg.poolCoreV1 acfg.referralCode acfg.tokens⟩)]
  | _, _ => []

theorem updateAaveV1Lending_ok (v : ChainView) (ms : Option Address)
    (cfg : Option AaveV1Config) (al : Option Address) :
    updateAaveV1Lending (okChain v) ms cfg al = (aaveV1Trace ms cfg al, .ok ()) := by
  cases al <;> cases cfg <;>
    simp [updateAaveV1Lending, aaveV1Trace, executeTxn_ok, printInfo_ok,
      EW.bind_eq, EW.pure_eq, EW.pure]

/-- The event trace of `updateAaveV2Lending` on a successful chain: whenever
the protocol is enabled, exactly one `updateAaveData` transaction, emitted
without consulting any on-chain state. -/
def aaveV2Trace (ms : Option Address) (cfg : Option AaveV2Config)
    (al : Option Address) : List Event :=
  match al, cfg with
  | some a, some acfg =>
      [.submit (signTxn ms ⟨some a, none,
          .updateAaveV2Data acfg.provider acfg.poolV2 acfg.referralCode acfg.weth acfg.tokens⟩),
       .confirmed (signTxn ms ⟨some a, none,
          .updateAaveV2Data acfg.provider acfg.poolV2 acfg.referralCode acfg.weth acfg.tokens⟩)]
  | _, _ => []

theorem updateAaveV2Lending_ok (v : ChainView) (ms : Option Address)
    (cfg : Option AaveV2Config) (al : Option Address) :
    updateAaveV2Lending (okChain v) ms cfg al = (aaveV2Trace ms cfg al, .ok ()) := by
  cases al <;> cases cfg <;>
    simp [updateAaveV2Lending, aaveV2Trace, executeTxn_ok, printInfo_ok,
      EW.bind_eq, EW.pure_eq, EW.pure]

/-- Events of one `deployContract` call on a successful chain: nothing when an
existing address is supplied, otherwise the deployment (submitted, then
confirmed) and, under `autoVerify`, one successful verification. -/
def deployPart (v : ChainView) (autoVerify : Bool) (name : String)
    (exAddr : Option Address) (args : List Arg) : List Event :=
  match exAddr with
  | some _ => []
  | none =>
      [.deploySubmit name args (v.deployAddr name), .deployConfirmEv name (v.deployAddr name)]
      ++ (if autoVerify then [.verifyOkEv (v.deployAddr name)] else [])

/-- The address `deployContract` returns: the supplied one, else the freshly
deployed one. -/
def deployedAddr (v : ChainView) (name : String) (exAddr : Option Address) : Address :=
  exAddr.getD (v.deployAddr name)

theorem deployContract_ok (v : ChainView) (av : Bool) (name : String)
    (exAddr : Option Address) (args : List Arg) :
    deployContract (okChain v) av name exAddr args
      = (deployPart v av name exAddr args, .ok (deployedAddr v name exAddr)) := by
  cases exAddr <;> cases av <;>
    simp [deployContract, deployPart, deployedAddr, EW.bind_eq, EW.pure_eq, EW.pure, EW.tell]

/-- Events of one `deployOptional` call on a successful chain. -/
def optDeployPart {β : Type} (v : ChainView) (autoVerify : Bool) (name : String)
    (exAddr : Option Address) (cfgOn : Option β) (args : β → List Arg) : List Event :=
  match cfgOn with
  | none => []
  | some b => deployPart v autoVerify name exAddr (args b)

/-- The optional address `deployOptional` returns. -/
def optDeployedAddr {β : Type} (v : ChainView) (name : String)
    (exAddr : Option Address) (cfgOn : Option β) : Option Address :=
  match cfgOn with
  | none => none
  | some _ => some (deployedAddr v name exAddr)

theorem deployOptional_ok {β : Type} (v : ChainView) (av : Bool) (name : String)
    (exAddr : Option Address) (cfgOn : Option β) (args : β → List Arg) :
    deployOptional (okChain v) av name exAddr cfgOn args
      = (optDeployPart v av name exAddr cfgOn args,
         .ok (optDeployedAddr v name exAddr cfgOn)) := by
  cases cfgOn <;>
    simp [deployOptional, optDeployPart, optDeployedAddr, deployContract_ok,
      EW.bind_eq, EW.pure_eq, EW.pure]

/-- The `KrystalContracts` record produced by `deployContracts` on a
successful chain. -/
def dcResult (v : ChainView) (cfg : NetworkCfg) (ex : Option ExistingContracts) :
    KrystalContracts :=
  ⟨deployedAddr v "SmartWalletImplementation" (ex.bind (·.smartWalletImplementation)),
   deployedAddr v "SmartWalletProxy" (ex.bind (·.smartWalletProxy)),
   deployedAddr v "FetchTokenBalances" (ex.bind (·.fetchTokenBalances)),
   deployedAddr v "FetchAaveDataWrapper" (ex.bind (·.fetchAaveDataWrapper)),
   ⟨optDeployedAddr v "UniSwap" ((ex.bind (·.swapContracts)).bind (·.uniSwap)) cfg.uniswap,
    optDeployedAddr v "UniSwapV3" ((ex.bind (·.swapContracts)).bind (·.uniSwapV3)) cfg.uniswapV3,
    optDeployedAddr v "KyberProxy" ((ex.bind (·.swapContracts)).bind (·.kyberProxy)) cfg.kyberProxy,
    optDeployedAddr v "KyberDmm" ((ex.bind (·.swapContracts)).bind (·.kyberDmm)) cfg.kyberDmm⟩,
   ⟨optDeployedAddr v "CompoundLending"
      ((ex.bind (·.lendingContracts)).bind (·.compoundLending)) cfg.compound,
    optDeployedAddr v "AaveV1Lending"
      ((ex.bind (·.lendingContracts)).bind (·.aaveV1Lending)) cfg.aaveV1,
    optDeployedAddr v "AaveV2Lending"
      ((ex.bind (·.lendingContracts)).bind (·.aaveV2Lending)) cfg.aaveV2,
    optDeployedAddr v "AaveV2Lending"
      ((ex.bind (·.lendingContracts)).bind (·.aaveAMMLending)) cfg.aaveAMM⟩⟩

/-- The event trace of `deployContracts` on a successful chain. -/
def dcTrace (v : ChainView) (cfg : NetworkCfg) (ex : Option ExistingContracts)
    (admin : Address) : List Event :=
  deployPart v cfg.autoVerifyContract "SmartWalletImplementation"
    (ex.bind (·.smartWalletImplementation)) [.addr admin]
  ++ deployPart v cfg.autoVerifyContract "FetchTokenBalances"
    (ex.bind (·.fetchTokenBalances)) [.addr admin]
  ++ deployPart v cfg.autoVerifyContract "FetchAaveDataWrapper"
    (ex.bind (·.fetchAaveDataWrapper)) [.addr admin]
  ++ optDeployPart v cfg.autoVerifyContract "UniSwap"
    ((ex.bind (·.swapContracts)).bind (·.uniSwap)) cfg.uniswap
    (fun u => [.addr admin, .addrList u.routers])
  ++ optDeployPart v cfg.autoVerifyContract "UniSwapV3"
    ((ex.bind (·.swapContracts)).bind (·.uniSwapV3)) cfg.uniswapV3
    (fun u => [.addr admin, .addrList u.routers])
  ++ optDeployPart v cfg.autoVerifyContract "KyberProxy"
    ((ex.bind (·.swapContracts)).bind (·.kyberProxy)) cfg.kyberProxy
    (fun k => [.addr admin, .addr k.proxy])
  ++ optDeployPart v cfg.autoVerifyContract "KyberDmm"
    ((ex.bind (·.swapContracts)).bind (·.kyberDmm)) cfg.kyberDmm
    (fun k => [.addr admin, .addr k.router])
  ++ optDeployPart v cfg.autoVerifyContract "CompoundLending"
    ((ex.bind (·.lendingContracts)).bind (·.compoundLending)) cfg.compound
    (fun _ => [.addr admin])
  ++ optDeployPart v cfg.autoVerifyContract "AaveV1Lending"
    ((ex.bind (·.lendingContracts)).bind (·.aaveV1Lending)) cfg.aaveV1
    (fun _ => [.addr admin])
  ++ optDeployPart v cfg.autoVerifyContract "AaveV2Lending"
    ((ex.bind (·.lendingContracts)).bind (·.aaveV2Lending)) cfg.aaveV2
    (fun _ => [.addr admin])
  ++ optDeployPart v cfg.autoVerifyContract "AaveV2Lending"
    ((ex.bind (·.lendingContracts)).bind (·.aaveAMMLending)) cfg.aaveAMM
    (fun _ => [.addr admin])
  ++ deployPart v cfg.autoVerifyContract "SmartWalletProxy"
    (ex.bind (·.smartWalletProxy))
    [.addr (dcResult v cfg ex).smartWalletImplementation, .addrList cfg.supportedWallets,
     .addrList (dcResult v cfg ex).swapContracts.addresses,
     .addrList (dcResult v cfg ex).lendingContracts.addresses]

theorem deployContracts_ok (v : ChainView) (cfg : NetworkCfg)
    (ex : Option ExistingContracts) (admin : Address) :
    deployContracts (okChain v) cfg ex admin
      = (dcTrace v cfg ex admin, .ok (dcResult v cfg ex)) := by
  simp [deployContracts, dcTrace, dcResult, deployContract_ok, deployOptional_ok,
    EW.bind_eq, EW.pure_eq, EW.pure, List.append_assoc]

/-- The full event trace of `deploy` on a successful chain. -/
def deployTrace (v : ChainView) (cfg : NetworkCfg) (ms : Option Address)
    (deployerAddress : Address) (ex : Option ExistingContracts) : List Event :=
  let c := dcResult v cfg ex
  dcTrace v cfg ex (ms.getD deployerAddress)
  ++ proxyTrace v ms cfg c
  ++ childTrace v ms c
  ++ uniTrace v.uniRouters ms cfg.uniswap c.swapContracts.uniSwap
  ++ uniTrace v.uniV3Routers ms cfg.uniswapV3 c.swapContracts.uniSwapV3
  ++ kyberProxyTrace v ms cfg.kyberProxy c.swapContracts.kyberProxy
  ++ kyberDmmTrace v ms cfg.kyberDmm c.swapContracts.kyberDmm
  ++ compoundTrace v ms cfg.compound c.lendingContracts.compoundLending
  ++ aaveV1Trace ms cfg.aaveV1 c.lendingContracts.aaveV1
  ++ aaveV2Trace ms cfg.aaveV2 c.lendingContracts.aaveV2
  ++ aaveV2Trace ms cfg.aaveAMM c.lendingContracts.aaveAMM

theorem deploy_ok (v : ChainView) (cfg : NetworkCfg) (ms : Option Address)
    (deployerAddress : Address) (ex : Option ExistingContracts) :
    deploy (okChain v) cfg ms deployerAddress ex
      = (deployTrace v cfg ms deployerAddress ex, .ok (dcResult v cfg ex)) := by
  simp [deploy, deployTrace, deployContracts_ok, updateProxy_ok, updateChildContracts_ok,
    updateUniSwap_ok, updateUniSwapV3_ok, updateKyberProxy_ok, updateKyberDmm_ok,
    updateCompoundLending_ok, updateAaveV1Lending_ok, updateAaveV2Lending_ok,
    EW.bind_eq, EW.pure_eq, EW.pure, List.append_assoc]

/-! ### Claims -/

/-- Test for a submission event. -/
def isSubmitEv : Event → Bool
  | .submit _ => true
  | _ => false

/-- C1: For every address-set reconciliation step (supported platform wallets,
supported swaps, supported lendings on the proxy, and routers on
UniSwap/UniSwapV3), given the existing on-chain address set and the configured
set, both compared after lowercasing, the step emits exactly one removal
transaction carrying the list `S - C` when it is non-empty, exactly one
addition transaction carrying `C - S` when it is non-empty, and no transaction
for an empty difference: each step's trace is `reconTrace` applied to the two
components of `diffLists`, and `reconTrace` contains exactly one submission
per non-empty difference. -/
theorem C1_address_set_reconciliation :
    (∀ (v : ChainView) (ms : Option Address) (cfg : NetworkCfg) (c : KrystalContracts),
      updateProxy (okChain v) ms cfg c = (proxyTrace v ms cfg c, .ok ()))
    ∧ (∀ (v : ChainView) (ms : Option Address) (ucfg : UniswapConfig) (u : Address),
      updateUniSwap (okChain v) ms (some ucfg) (some u)
        = (reconTrace ms (mkUniTxn u) (diffLists v.uniRouters ucfg.routers).1
            (diffLists v.uniRouters ucfg.routers).2, .ok ()))
    ∧ (∀ (v : ChainView) (ms : Option Address) (ucfg : UniswapConfig) (u : Address),
      updateUniSwapV3 (okChain v) ms (some ucfg) (some u)
        = (reconTrace ms (mkUniTxn u) (diffLists v.uniV3Routers ucfg.routers).1
            (diffLists v.uniV3Routers ucfg.routers).2, .ok ()))
    ∧ (∀ (ms : Option Address) (mk : List Address → Bool → PopTxn) (r a : List Address),
      (reconTrace ms mk r a).countP isSubmitEv
        = (if r = [] then 0 else 1) + (if a = [] then 0 else 1)) := by
  refine ⟨fun v ms cfg c => updateProxy_ok v ms cfg c, ?_, ?_, ?_⟩
  · intro v ms ucfg u
    rw [updateUniSwap_ok]
    rfl
  · intro v ms ucfg u
    rw [updateUniSwapV3_ok]
    rfl
  · intro ms mk r a
    cases r <;> cases a <;> simp [reconTrace, isSubmitEv]

/-- C3: `deployContract` is deploy-if-missing: with an existing address it
attaches and returns that address, emitting no event at all (no deployment
transaction and no verification); with no address it deploys with the given
constructor arguments, confirms the deployment, and verifies only under
`autoVerify`. -/
theorem C3_deploy_if_missing :
    (∀ (ch : Chain) (av : Bool) (name : String) (addr : Address) (args : List Arg),
      deployContract ch av name (some addr) args = ([], .ok addr))
    ∧ (∀ (v : ChainView) (av : Bool) (name : String) (args : List Arg),
      deployContract (okChain v) av name none args
        = ([.deploySubmit name args (v.deployAddr name),
            .deployConfirmEv name (v.deployAddr name)]
            ++ (if av then [.verifyOkEv (v.deployAddr name)] else []),
           .ok (v.deployAddr name))) := by
  refine ⟨fun ch av name addr args => rfl, ?_⟩
  intro v av name args
  rw [deployContract_ok]
  rfl

/-- C9: For every network name with no entry in the configuration table, the
script fails at load time with `Missing deploy config for <name>`, before any
chain interaction: the run produces no event at all, on every chain. -/
theorem C9_missing_network_config (tbl : List (String × NetworkCfg)) (name : String)
    (ch : Chain) (ms : Option Address) (dep : Address) (ex : Option ExistingContracts)
    (h : tbl.lookup name = none) :
    runDeploy tbl name ch ms dep ex
      = ([], .error ("Missing deploy config for " ++ name)) := by
  simp [runDeploy, loadNetworkConfig, h, EW.bind_eq]

/-- C9 witness: the empty configuration table at a concrete network name. -/
theorem C9_missing_network_config_witness :
    List.lookup "fantom_testnet" ([] : List (String × NetworkCfg)) = none
    ∧ runDeploy [] "fantom_testnet"
        (okChain ⟨"0xi", [], [], [], fun _ => "0xp", [], [], "0xk", "0xd", "0xcd",
          fun _ => "0xn", ⟨"0xp1", "0xc1", 0, []⟩, ⟨"0xpr", "0xp2", 0, "0xw", []⟩,
          ⟨"0xpr", "0xp2", 0, "0xw", []⟩⟩)
        none "0xdeployer" none
      = ([], .error ("Missing deploy config for " ++ "fantom_testnet")) :=
  ⟨rfl, C9_missing_network_config [] "fantom_testnet" _ none "0xdeployer" none rfl⟩

/-- C10: Address-set reconciliation is insensitive to hexadecimal letter case:
replacing entries of the on-chain or configured list by entries with the same
lower-casing leaves the computed removal and addition lists (which are emitted
lower-cased) literally unchanged; in particular a config entry differing from
an on-chain entry only in case produces no transaction. -/
theorem C10_case_insensitivity :
    (∀ S C S' C' : List Address, S'.map lower = S.map lower → C'.map lower = C.map lower →
      diffLists S' C' = diffLists S C)
    ∧ (∀ s c : Address, lower s = lower c → diffLists [s] [c] = ([], []))
    ∧ (∀ (v : ChainView) (ms : Option Address) (ucfg : UniswapConfig) (u : Address)
        (s c : Address), lower s = lower c → v.uniRouters = [s] → ucfg.routers = [c] →
        (updateUniSwap (okChain v) ms (some ucfg) (some u)).1 = []) := by
  refine ⟨?_, ?_, ?_⟩
  · intro S C S' C' h1 h2
    simp only [diffLists]
    rw [h1, h2]
  · intro s c h
    simp [diffLists, h]
  · intro v ms ucfg u s c h hv hc
    rw [updateUniSwap_ok]
    simp [uniTrace, hv, hc, diffLists, h, reconTrace]

/-- C10 witness: concrete lists differing only in hex letter case. -/
theorem C10_case_insensitivity_witness :
    diffLists ["0xAB"] ["0xCD"] = diffLists ["0xab"] ["0xcd"]
    ∧ diffLists ["0xAB"] ["0xab"] = ([], [])
    ∧ (updateUniSwap
        (okChain ⟨"0xi", [], [], [], fun _ => "0xp", ["0xAB"], [], "0xk", "0xd", "0xcd",
          fun _ => "0xn", ⟨"0xp1", "0xc1", 0, []⟩, ⟨"0xpr", "0xp2", 0, "0xw", []⟩,
          ⟨"0xpr", "0xp2", 0, "0xw", []⟩⟩)
        none (some ⟨["0xab"]⟩) (some "0xu")).1 = [] :=
  ⟨C10_case_insensitivity.1 ["0xab"] ["0xcd"] ["0xAB"] ["0xCD"] (by decide) (by decide),
   C10_case_insensitivity.2.1 "0xAB" "0xab" (by decide),
   C10_case_insensitivity.2.2 _ none ⟨["0xab"]⟩ "0xu" "0xAB" "0xab" (by decide) rfl rfl⟩

/-- The string the compound step compares against the configured comptroller
has at most 40 characters (`'0x'` plus at most 38 sliced characters), so it
can never equal a full 42-character address string. -/
theorem compound_current_length (d : String) : ("0x" ++ jsSlice d 2 40).length ≤ 40 := by
  have h : (jsSlice d 2 40).length ≤ 38 := List.length_take_le 38 (d.data.drop 2)
  have h2 : ("0x" ++ jsSlice d 2 40).length = 2 + (jsSlice d 2 40).length :=
    String.length_append "0x" (jsSlice d 2 40)
  omega

/-- C2 counterexample: the Aave V1 lending step emits a transaction even when
the on-chain Aave configuration already equals the desired configuration (the
step never reads on-chain state), so it is not idempotent as claimed. -/
theorem C2_aave_step_not_idempotent_counterexample :
    (⟨"0xi", [], [], [], fun _ => "0xp", [], [], "0xk", "0xd", "0xcd", fun _ => "0xn",
       ⟨"0xpool", "0xcore", 0, []⟩, ⟨"0xpr", "0xp2", 0, "0xw", []⟩,
       ⟨"0xpr", "0xp2", 0, "0xw", []⟩⟩ : ChainView).aaveV1Data
      = ⟨"0xpool", "0xcore", 0, []⟩
    ∧ (updateAaveV1Lending
        (okChain ⟨"0xi", [], [], [], fun _ => "0xp", [], [], "0xk", "0xd", "0xcd",
          fun _ => "0xn", ⟨"0xpool", "0xcore", 0, []⟩, ⟨"0xpr", "0xp2", 0, "0xw", []⟩,
          ⟨"0xpr", "0xp2", 0, "0xw", []⟩⟩)
        none (some ⟨"0xpool", "0xcore", 0, []⟩) (some "0xaave")).1 ≠ [] := by
  refine ⟨rfl, ?_⟩
  rw [updateAaveV1Lending_ok]
  simp [aaveV1Trace]

/-- C2 (amended): the proxy, child-linking, uniswap, uniswapV3, kyberProxy and
kyberDmm steps are idempotent — each reads the current on-chain value and
emits nothing when it already matches the configuration; the Compound step
reads and compares, but its compared slice (at most 40 characters) never
equals a full 42-character configured address, so it emits whenever enabled;
and the Aave V1/V2 steps emit their update transaction unconditionally,
without reading on-chain state (their trace does not depend on the chain
view). -/
theorem C2_reconciliation_idempotent_amended :
    (∀ (v : ChainView) (ms : Option Address) (cfg : NetworkCfg) (c : KrystalContracts),
      v.implAddr = c.smartWalletImplementation →
      diffLists v.supportedPlatformWallets cfg.supportedWallets = ([], []) →
      diffLists v.supportedSwaps c.swapContracts.addresses = ([], []) →
      diffLists v.supportedLendings c.lendingContracts.addresses = ([], []) →
      (updateProxy (okChain v) ms cfg c).1 = [])
    ∧ (∀ (v : ChainView) (ms : Option Address) (p a : Address),
      lower (v.proxyContractOf a) = lower p →
      (updateChildContract (okChain v) ms p (some a)).1 = [])
    ∧ (∀ (v : ChainView) (ms : Option Address) (ucfg : UniswapConfig) (u : Address),
      diffLists v.uniRouters ucfg.routers = ([], []) →
      (updateUniSwap (okChain v) ms (some ucfg) (some u)).1 = [])
    ∧ (∀ (v : ChainView) (ms : Option Address) (ucfg : UniswapConfig) (u : Address),
      diffLists v.uniV3Routers ucfg.routers = ([], []) →
      (updateUniSwapV3 (okChain v) ms (some ucfg) (some u)).1 = [])
    ∧ (∀ (v : ChainView) (ms : Option Address) (kcfg : KyberProxyConfig) (k : Address),
      lower v.kyberProxyAddr = lower kcfg.proxy →
      (updateKyberProxy (okChain v) ms (some kcfg) (some k)).1 = [])
    ∧ (∀ (v : ChainView) (ms : Option Address) (kcfg : KyberDmmConfig) (k : Address),
      lower v.dmmRouter = lower kcfg.router →
      (updateKyberDmm (okChain v) ms (some kcfg) (some k)).1 = [])
    ∧ (∀ (v : ChainView) (ms : Option Address) (ccfg : CompoundConfig) (c : Address),
      "0x" ++ jsSlice v.compoundData 2 40 = ccfg.compTroller →
      (updateCompoundLending (okChain v) ms (some ccfg) (some c)).1 = [])
    ∧ (∀ (v : ChainView) (ms : Option Address) (ccfg : CompoundConfig) (c : Address),
      ccfg.compTroller.length = 42 →
      (updateCompoundLending (okChain v) ms (some ccfg) (some c)).1 ≠ [])
    ∧ (∀ (v : ChainView) (ms : Option Address) (acfg : AaveV1Config) (a : Address),
      (updateAaveV1Lending (okChain v) ms (some acfg) (some a)).1
        = aaveV1Trace ms (some acfg) (some a)
      ∧ aaveV1Trace ms (some acfg) (some a) ≠ [])
    ∧ (∀ (v : ChainView) (ms : Option Address) (acfg : AaveV2Config) (a : Address),
      (updateAaveV2Lending (okChain v) ms (some acfg) (some a)).1
        = aaveV2Trace ms (some acfg) (some a)
      ∧ aaveV2Trace ms (some acfg) (some a) ≠ []) := by
  refine ⟨?_, ?_, ?_, ?_, ?_, ?_, ?_, ?_, ?_, ?_⟩
  · intro v ms cfg c h1 h2 h3 h4
    rw [updateProxy_ok]
    simp [proxyTrace, implPart, h1, h2, h3, h4, reconTrace]
  · intro v ms p a h
    rw [updateChildContract_ok]
    simp [childPart, h]
  · intro v ms ucfg u h
    rw [updateUniSwap_ok]
    simp [uniTrace, h, reconTrace]
  · intro v ms ucfg u h
    rw [updateUniSwapV3_ok]
    simp [uniTrace, h, reconTrace]
  · intro v ms kcfg k h
    rw [updateKyberProxy_ok]
    simp [kyberProxyTrace, h]
  · intro v ms kcfg k h
    rw [updateKyberDmm_ok]
    simp [kyberDmmTrace, h]
  · intro v ms ccfg c h
    rw [updateCompoundLending_ok]
    simp [compoundTrace, h]
  · intro v ms ccfg c h
    rw [updateCompoundLending_ok]
    have hne : ¬("0x" ++ jsSlice v.compoundData 2 40 = ccfg.compTroller) := by
      intro heq
      have := compound_current_length v.compoundData
      rw [heq, h] at this
      omega
    simp [compoundTrace, hne]
  · intro v ms acfg a
    rw [updateAaveV1Lending_ok]
    exact ⟨rfl, by simp [aaveV1Trace]⟩
  · intro v ms acfg a
    rw [updateAaveV2Lending_ok]
    exact ⟨rfl, by simp [aaveV2Trace]⟩

/-- C2 (amended) witness: one concrete instantiation of each conjunct. -/
theorem C2_reconciliation_idempotent_amended_witness :
    (updateProxy
      (okChain ⟨"0xi", [], [], [], fun _ => "0xp", [], [], "0xk", "0xd", "0xcd",
        fun _ => "0xn", ⟨"0xp1", "0xc1", 0, []⟩, ⟨"0xpr", "0xp2", 0, "0xw", []⟩,
        ⟨"0xpr", "0xp2", 0, "0xw", []⟩⟩)
      none ⟨false, [], none, none, none, none, none, none, none, none⟩
      ⟨"0xi", "0xp", "0xf", "0xw", ⟨none, none, none, none⟩,
        ⟨none, none, none, none⟩⟩).1 = []
    ∧ (updateChildContract
        (okChain ⟨"0xi", [], [], [], fun _ => "0xp", [], [], "0xk", "0xd", "0xcd",
          fun _ => "0xn", ⟨"0xp1", "0xc1", 0, []⟩, ⟨"0xpr", "0xp2", 0, "0xw", []⟩,
          ⟨"0xpr", "0xp2", 0, "0xw", []⟩⟩)
        none "0xP" (some "0xa")).1 = []
    ∧ (updateUniSwap
        (okChain ⟨"0xi", [], [], [], fun _ => "0xp", [], [], "0xk", "0xd", "0xcd",
          fun _ => "0xn", ⟨"0xp1", "0xc1", 0, []⟩, ⟨"0xpr", "0xp2", 0, "0xw", []⟩,
          ⟨"0xpr", "0xp2", 0, "0xw", []⟩⟩)
        none (some ⟨[]⟩) (some "0xu")).1 = []
    ∧ (updateUniSwapV3
        (okChain ⟨"0xi", [], [], [], fun _ => "0xp", [], [], "0xk", "0xd", "0xcd",
          fun _ => "0xn", ⟨"0xp1", "0xc1", 0, []⟩, ⟨"0xpr", "0xp2", 0, "0xw", []⟩,
          ⟨"0xpr", "0xp2", 0, "0xw", []⟩⟩)
        none (some ⟨[]⟩) (some "0xu")).1 = []
    ∧ (updateKyberProxy
        (okChain ⟨"0xi", [], [], [], fun _ => "0xp", [], [], "0xk", "0xd", "0xcd",
          fun _ => "0xn", ⟨"0xp1", "0xc1", 0, []⟩, ⟨"0xpr", "0xp2", 0, "0xw", []⟩,
          ⟨"0xpr", "0xp2", 0, "0xw", []⟩⟩)
        none (some ⟨"0xK"⟩) (some "0xkp")).1 = []
    ∧ (updateKyberDmm
        (okChain ⟨"0xi", [], [], [], fun _ => "0xp", [], [], "0xk", "0xd", "0xcd",
          fun _ => "0xn", ⟨"0xp1", "0xc1", 0, []⟩, ⟨"0xpr", "0xp2", 0, "0xw", []⟩,
          ⟨"0xpr", "0xp2", 0, "0xw", []⟩⟩)
        none (some ⟨"0xD"⟩) (some "0xkd")).1 = []
    ∧ (updateCompoundLending
        (okChain ⟨"0xi", [], [], [], fun _ => "0xp", [], [], "0xk", "0xd", "0xcd",
          fun _ => "0xn", ⟨"0xp1", "0xc1", 0, []⟩, ⟨"0xpr", "0xp2", 0, "0xw", []⟩,
          ⟨"0xpr", "0xp2", 0, "0xw", []⟩⟩)
        none (some ⟨"0xcd", "0xn", []⟩) (some "0xc")).1 = []
    ∧ (updateCompoundLending
        (okChain ⟨"0xi", [], [], [], fun _ => "0xp", [], [], "0xk", "0xd", "0xcd",
          fun _ => "0xn", ⟨"0xp1", "0xc1", 0, []⟩, ⟨"0xpr", "0xp2", 0, "0xw", []⟩,
          ⟨"0xpr", "0xp2", 0, "0xw", []⟩⟩)
        none (some ⟨"0xaaaaaaaaaaaaaaaaaaaaaaaaaaaaaaaaaaaaaaaa", "0xn", []⟩)
        (some "0xc")).1 ≠ []
    ∧ ((updateAaveV1Lending
        (okChain ⟨"0xi", [], [], [], fun _ => "0xp", [], [], "0xk", "0xd", "0xcd",
          fun _ => "0xn", ⟨"0xp1", "0xc1", 0, []⟩, ⟨"0xpr", "0xp2", 0, "0xw", []⟩,
          ⟨"0xpr", "0xp2", 0, "0xw", []⟩⟩)
        none (some ⟨"0xp1", "0xc1", 0, []⟩) (some "0xa1")).1
          = aaveV1Trace none (some ⟨"0xp1", "0xc1", 0, []⟩) (some "0xa1")
       ∧ aaveV1Trace none (some ⟨"0xp1", "0xc1", 0, []⟩) (some "0xa1") ≠ [])
    ∧ ((updateAaveV2Lending
        (okChain ⟨"0xi", [], [], [], fun _ => "0xp", [], [], "0xk", "0xd", "0xcd",
          fun _ => "0xn", ⟨"0xp1", "0xc1", 0, []⟩, ⟨"0xpr", "0xp2", 0, "0xw", []⟩,
          ⟨"0xpr", "0xp2", 0, "0xw", []⟩⟩)
        none (some ⟨"0xpr", "0xp2", 0, "0xw", []⟩) (some "0xa2")).1
          = aaveV2Trace none (some ⟨"0xpr", "0xp2", 0, "0xw", []⟩) (some "0xa2")
       ∧ aaveV2Trace none (some ⟨"0xpr", "0xp2", 0, "0xw", []⟩) (some "0xa2") ≠ []) :=
  ⟨C2_reconciliation_idempotent_amended.1 _ none _ _ rfl (by decide) (by decide) (by decide),
   C2_reconciliation_idempotent_amended.2.1 _ none "0xP" "0xa" (by decide),
   C2_reconciliation_idempotent_amended.2.2.1 _ none ⟨[]⟩ "0xu" (by decide),
   C2_reconciliation_idempotent_amended.2.2.2.1 _ none ⟨[]⟩ "0xu" (by decide),
   C2_reconciliation_idempotent_amended.2.2.2.2.1 _ none ⟨"0xK"⟩ "0xkp" (by decide),
   C2_reconciliation_idempotent_amended.2.2.2.2.2.1 _ none ⟨"0xD"⟩ "0xkd" (by decide),
   C2_reconciliation_idempotent_amended.2.2.2.2.2.2.1 _ none ⟨"0xcd", "0xn", []⟩ "0xc"
     (by decide),
   C2_reconciliation_idempotent_amended.2.2.2.2.2.2.2.1 _ none
     ⟨"0xaaaaaaaaaaaaaaaaaaaaaaaaaaaaaaaaaaaaaaaa", "0xn", []⟩ "0xc" (by decide),
   C2_reconciliation_idempotent_amended.2.2.2.2.2.2.2.2.1 _ none ⟨"0xp1", "0xc1", 0, []⟩ "0xa1",
   C2_reconciliation_idempotent_amended.2.2.2.2.2.2.2.2.2 _ none
     ⟨"0xpr", "0xp2", 0, "0xw", []⟩ "0xa2"⟩

/-- C5: the claim states `updateCompoundData` is emitted iff the comptroller
stored in the first 20 bytes of the on-chain `compoundData` differs as an
address from the configured `compTroller`. The code's own comment says
"comptroller is at the first 20 bytes", but `compoundData.slice(2, 40)` takes
only 38 hex characters (19 bytes), so the comparison never succeeds against a
full 42-character address: here the stored first 20 bytes (characters 2-41)
equal the configured address exactly, yet a transaction is still emitted. -/
theorem C5_compound_comparison_code_bug :
    "0x" ++ jsSlice "0xaaaaaaaaaaaaaaaaaaaaaaaaaaaaaaaaaaaaaaaa" 2 42
      = "0xaaaaaaaaaaaaaaaaaaaaaaaaaaaaaaaaaaaaaaaa"
    ∧ (updateCompoundLending
        (okChain ⟨"0xi", [], [], [], fun _ => "0xp", [], [], "0xk", "0xd",
          "0xaaaaaaaaaaaaaaaaaaaaaaaaaaaaaaaaaaaaaaaa", fun _ => "0xn",
          ⟨"0xp1", "0xc1", 0, []⟩, ⟨"0xpr", "0xp2", 0, "0xw", []⟩,
          ⟨"0xpr", "0xp2", 0, "0xw", []⟩⟩)
        none (some ⟨"0xaaaaaaaaaaaaaaaaaaaaaaaaaaaaaaaaaaaaaaaa", "0xn", []⟩)
        (some "0xcomp")).1 ≠ [] := by
  refine ⟨by decide, ?_⟩
  rw [updateCompoundLending_ok]
  have hne : ¬("0x" ++ jsSlice "0xaaaaaaaaaaaaaaaaaaaaaaaaaaaaaaaaaaaaaaaa" 2 40
      = "0xaaaaaaaaaaaaaaaaaaaaaaaaaaaaaaaaaaaaaaaa") := by decide
  simp [compoundTrace, hne]

/-- A chain on which every interaction succeeds except contract source
verification, which fails with `e`. -/
def verifyFailChain (v : ChainView) (e : Err) : Chain :=
  { okChain v with verifyOutcome := fun _ => .error e }

/-- A chain on which every interaction succeeds except transaction
submission, which fails with `e`. -/
def sendFailChain (v : ChainView) (e : Err) : Chain :=
  { okChain v with sendTxn := fun _ => .error e }

/-- A minimal network configuration: no optional protocol enabled. -/
def cfgMin : NetworkCfg := ⟨false, [], none, none, none, none, none, none, none, none⟩

/-- Existing addresses for every contract `cfgMin` deploys. -/
def exAll : ExistingContracts :=
  ⟨some "0xImpl", some "0xFetch", some "0xAaveWrap", some "0xProxy", none, none⟩

/-- A chain on which every interaction succeeds except awaiting a deployed
contract's confirmation (`printInfo(tx.deployTransaction)`), which fails with
`e`. -/
def confirmDeployFailChain (v : ChainView) (e : Err) : Chain :=
  { okChain v with confirmDeploy := fun _ => .error e }

/-- A chain on which every interaction succeeds except awaiting a submitted
transaction's confirmation (`tx.wait(1)` in `printInfo`), which fails with
`e`. -/
def confirmTxnFailChain (v : ChainView) (e : Err) : Chain :=
  { okChain v with confirmTxn := fun _ => .error e }

/-- C4: A verification failure is caught and logged exactly once, not retried,
and `deployContract` still returns the deployed contract; a deployment failure
propagates out of `deployContract` as the error itself; and an error from any
other contract call — a state read, a transaction submission, a deployment's
confirmation, or a submitted transaction's confirmation — propagates out of
`deploy` as a fatal failure with no recovery or retry. -/
theorem C4_error_propagation :
    (∀ (v : ChainView) (e : Err) (name : String) (args : List Arg),
      deployContract (verifyFailChain v e) true name none args
        = ([.deploySubmit name args (v.deployAddr name),
            .deployConfirmEv name (v.deployAddr name),
            .verifyFailedLog (v.deployAddr name) e],
           .ok (v.deployAddr name)))
    ∧ (∀ (ch : Chain) (av : Bool) (name : String) (args : List Arg) (e : Err),
      ch.deployOutcome name = .error e →
      deployContract ch av name none args = ([], .error e))
    ∧ (∀ (ch : Chain) (ms : Option Address) (dep : Address) (e : Err),
      ch.implAddr = .error e →
      deploy ch cfgMin ms dep (some exAll) = ([], .error e))
    ∧ (∀ (v : ChainView) (ms : Option Address) (dep : Address) (e : Err),
      v.implAddr ≠ "0xImpl" →
      deploy (sendFailChain v e) cfgMin ms dep (some exAll) = ([], .error e))
    ∧ (∀ (v : ChainView) (ms : Option Address) (dep : Address) (e : Err),
      deploy (confirmDeployFailChain v e) cfgMin ms dep none
        = ([.deploySubmit "SmartWalletImplementation" [.addr (ms.getD dep)]
             (v.deployAddr "SmartWalletImplementation")], .error e))
    ∧ (∀ (v : ChainView) (ms : Option Address) (dep : Address) (e : Err),
      v.implAddr ≠ "0xImpl" →
      deploy (confirmTxnFailChain v e) cfgMin ms dep (some exAll)
        = ([.submit (signTxn ms
             ⟨some "0xProxy", none, .updateNewImplementation "0xImpl"⟩)], .error e)) := by
  refine ⟨?_, ?_, ?_, ?_, ?_, ?_⟩
  · intro v e name args
    simp [deployContract, verifyFailChain, okChain, EW.bind_eq, EW.pure, EW.lift, EW.tell]
  · intro ch av name args e h
    simp [deployContract, h, EW.bind_eq, EW.lift]
  · intro ch ms dep e h
    simp [deploy, deployContracts, deployOptional, deployContract, updateProxy,
      cfgMin, exAll, h, EW.bind_eq, EW.pure, EW.lift, EW.tell]
  · intro v ms dep e h
    simp [deploy, deployContracts, deployOptional, deployContract, updateProxy,
      executeTxn, sendFailChain, okChain, cfgMin, exAll, h,
      EW.bind_eq, EW.pure, EW.lift, EW.tell]
  · intro v ms dep e
    simp [deploy, deployContracts, deployOptional, deployContract,
      confirmDeployFailChain, okChain, cfgMin,
      EW.bind_eq, EW.pure, EW.lift, EW.tell]
  · intro v ms dep e h
    simp [deploy, deployContracts, deployOptional, deployContract, updateProxy,
      executeTxn, printInfo, confirmTxnFailChain, okChain, cfgMin, exAll, h,
      EW.bind_eq, EW.pure, EW.lift, EW.tell]

/-- C4 witness: concrete failing chains for each conjunct. -/
theorem C4_error_propagation_witness :
    deployContract
      (verifyFailChain ⟨"0xi", [], [], [], fun _ => "0xp", [], [], "0xk", "0xd", "0xcd",
        fun _ => "0xn", ⟨"0xp1", "0xc1", 0, []⟩, ⟨"0xpr", "0xp2", 0, "0xw", []⟩,
        ⟨"0xpr", "0xp2", 0, "0xw", []⟩⟩ "boom")
      true "UniSwap" none []
      = ([.deploySubmit "UniSwap" [] "0xn", .deployConfirmEv "UniSwap" "0xn",
          .verifyFailedLog "0xn" "boom"], .ok "0xn")
    ∧ deployContract
        ({ okChain ⟨"0xi", [], [], [], fun _ => "0xp", [], [], "0xk", "0xd", "0xcd",
           fun _ => "0xn", ⟨"0xp1", "0xc1", 0, []⟩, ⟨"0xpr", "0xp2", 0, "0xw", []⟩,
           ⟨"0xpr", "0xp2", 0, "0xw", []⟩⟩ with
           deployOutcome := fun _ => .error "boom" })
        false "UniSwap" none [] = ([], .error "boom")
    ∧ deploy
        ({ okChain ⟨"0xi", [], [], [], fun _ => "0xp", [], [], "0xk", "0xd", "0xcd",
           fun _ => "0xn", ⟨"0xp1", "0xc1", 0, []⟩, ⟨"0xpr", "0xp2", 0, "0xw", []⟩,
           ⟨"0xpr", "0xp2", 0, "0xw", []⟩⟩ with
           implAddr := .error "boom" })
        cfgMin none "0xdep" (some exAll) = ([], .error "boom")
    ∧ deploy
        (sendFailChain ⟨"0xZ", [], [], [], fun _ => "0xp", [], [], "0xk", "0xd", "0xcd",
          fun _ => "0xn", ⟨"0xp1", "0xc1", 0, []⟩, ⟨"0xpr", "0xp2", 0, "0xw", []⟩,
          ⟨"0xpr", "0xp2", 0, "0xw", []⟩⟩ "boom")
        cfgMin none "0xdep" (some exAll) = ([], .error "boom")
    ∧ deploy
        (confirmDeployFailChain ⟨"0xi", [], [], [], fun _ => "0xp", [], [], "0xk", "0xd",
          "0xcd", fun _ => "0xn", ⟨"0xp1", "0xc1", 0, []⟩, ⟨"0xpr", "0xp2", 0, "0xw", []⟩,
          ⟨"0xpr", "0xp2", 0, "0xw", []⟩⟩ "boom")
        cfgMin none "0xdep" none
        = ([.deploySubmit "SmartWalletImplementation" [.addr "0xdep"] "0xn"], .error "boom")
    ∧ deploy
        (confirmTxnFailChain ⟨"0xZ", [], [], [], fun _ => "0xp", [], [], "0xk", "0xd",
          "0xcd", fun _ => "0xn", ⟨"0xp1", "0xc1", 0, []⟩, ⟨"0xpr", "0xp2", 0, "0xw", []⟩,
          ⟨"0xpr", "0xp2", 0, "0xw", []⟩⟩ "boom")
        cfgMin none "0xdep" (some exAll)
        = ([.submit (signTxn none
             ⟨some "0xProxy", none, .updateNewImplementation "0xImpl"⟩)], .error "boom") :=
  ⟨C4_error_propagation.1 _ "boom" "UniSwap" [],
   C4_error_propagation.2.1 _ false "UniSwap" [] "boom" rfl,
   C4_error_propagation.2.2.1 _ none "0xdep" "boom" rfl,
   C4_error_propagation.2.2.2.1 _ none "0xdep" "boom" (by decide),
   C4_error_propagation.2.2.2.2.1 _ none "0xdep" "boom",
   C4_error_propagation.2.2.2.2.2 _ none "0xdep" "boom" (by decide)⟩

/-- Events that carry no transaction: verification outcomes (logged between
confirmations). -/
def isNoteEv : Event → Bool
  | .verifyOkEv _ => true
  | .verifyFailedLog _ _ => true
  | _ => false

/-- A trace is sequential when every submission — of an update transaction or
of a contract deployment — is immediately followed by the await of its own
confirmation, before anything else happens. -/
inductive SeqTrace : List Event → Prop where
  | nil : SeqTrace []
  | txn (st : SignedTxn) (rest : List Event) : SeqTrace rest →
      SeqTrace (.submit st :: .confirmed st :: rest)
  | dep (name : String) (args : List Arg) (addr : Address) (rest : List Event) :
      SeqTrace rest →
      SeqTrace (.deploySubmit name args addr :: .deployConfirmEv name addr :: rest)
  | note (e : Event) (rest : List Event) : isNoteEv e = true → SeqTrace rest →
      SeqTrace (e :: rest)

theorem SeqTrace.append {x y : List Event} (hx : SeqTrace x) (hy : SeqTrace y) :
    SeqTrace (x ++ y) := by
  induction hx with
  | nil => simpa
  | txn st rest h ih => exact .txn st _ ih
  | dep n a ad rest h ih => exact .dep n a ad _ ih
  | note e rest hn h ih => exact .note e _ hn ih

theorem seqTrace_pair (st : SignedTxn) : SeqTrace [.submit st, .confirmed st] :=
  .txn st [] .nil

theorem seqTrace_reconTrace (ms : Option Address) (mk : List Address → Bool → PopTxn)
    (r a : List Address) : SeqTrace (reconTrace ms mk r a) := by
  unfold reconTrace
  apply SeqTrace.append <;> split <;> first | exact .nil | exact seqTrace_pair _

theorem seqTrace_implPart (v : ChainView) (ms : Option Address) (c : KrystalContracts) :
    SeqTrace (implPart v ms c) := by
  unfold implPart
  split
  · exact .nil
  · exact seqTrace_pair _

theorem seqTrace_proxyTrace (v : ChainView) (ms : Option Address) (cfg : NetworkCfg)
    (c : KrystalContracts) : SeqTrace (proxyTrace v ms cfg c) :=
  ((seqTrace_implPart v ms c).append (seqTrace_reconTrace _ _ _ _)).append
    (seqTrace_reconTrace _ _ _ _) |>.append (seqTrace_reconTrace _ _ _ _)

theorem seqTrace_childPart (v : ChainView) (ms : Option Address) (p : Address)
    (child : Option Address) : SeqTrace (childPart v ms p child) := by
  unfold childPart
  repeat' split
  all_goals first | exact .nil | exact seqTrace_pair _

theorem seqTrace_childTrace (v : ChainView) (ms : Option Address)
    (c : KrystalContracts) : SeqTrace (childTrace v ms c) := by
  unfold childTrace
  repeat' apply SeqTrace.append
  all_goals exact seqTrace_childPart v ms _ _

theorem seqTrace_uniTrace (existing : List Address) (ms : Option Address)
    (cfg : Option UniswapConfig) (uni : Option Address) :
    SeqTrace (uniTrace existing ms cfg uni) := by
  unfold uniTrace
  repeat' split
  all_goals first | exact .nil | exact seqTrace_reconTrace _ _ _ _

theorem seqTrace_kyberProxyTrace (v : ChainView) (ms : Option Address)
    (cfg : Option KyberProxyConfig) (kp : Option Address) :
    SeqTrace (kyberProxyTrace v ms cfg kp) := by
  unfold kyberProxyTrace
  repeat' split
  all_goals first | exact .nil | exact seqTrace_pair _

theorem seqTrace_kyberDmmTrace (v : ChainView) (ms : Option Address)
    (cfg : Option KyberDmmConfig) (kd : Option Address) :
    SeqTrace (kyberDmmTrace v ms cfg kd) := by
  unfold kyberDmmTrace
  repeat' split
  all_goals first | exact .nil | exact seqTrace_pair _

theorem seqTrace_compoundTrace (v : ChainView) (ms : Option Address)
    (cfg : Option CompoundConfig) (cl : Option Address) :
    SeqTrace (compoundTrace v ms cfg cl) := by
  unfold compoundTrace
  repeat' split
  all_goals first | exact .nil | exact seqTrace_pair _

theorem seqTrace_aaveV1Trace (ms : Option Address) (cfg : Option AaveV1Config)
    (al : Option Address) : SeqTrace (aaveV1Trace ms cfg al) := by
  unfold aaveV1Trace
  repeat' split
  all_goals first | exact .nil | exact seqTrace_pair _

theorem seqTrace_aaveV2Trace (ms : Option Address) (cfg : Option AaveV2Config)
    (al : Option Address) : SeqTrace (aaveV2Trace ms cfg al) := by
  unfold aaveV2Trace
  repeat' split
  all_goals first | exact .nil | exact seqTrace_pair _

theorem seqTrace_deployPart (v : ChainView) (av : Bool) (name : String)
    (exAddr : Option Address) (args : List Arg) :
    SeqTrace (deployPart v av name exAddr args) := by
  unfold deployPart
  repeat' split
  all_goals first
    | exact .nil
    | exact .dep _ _ _ _ (.note _ _ rfl .nil)
    | exact .dep _ _ _ _ .nil

theorem seqTrace_optDeployPart {β : Type} (v : ChainView) (av : Bool) (name : String)
    (exAddr : Option Address) (cfgOn : Option β) (args : β → List Arg) :
    SeqTrace (optDeployPart v av name exAddr cfgOn args) := by
  unfold optDeployPart
  repeat' split
  all_goals first | exact .nil | exact seqTrace_deployPart v av name exAddr _

theorem seqTrace_dcTrace (v : ChainView) (cfg : NetworkCfg)
    (ex : Option ExistingContracts) (admin : Address) :
    SeqTrace (dcTrace v cfg ex admin) := by
  unfold dcTrace
  repeat' apply SeqTrace.append
  all_goals first
    | exact seqTrace_deployPart v _ _ _ _
    | exact seqTrace_optDeployPart v _ _ _ _ _

theorem seqTrace_deployTrace (v : ChainView) (cfg : NetworkCfg) (ms : Option Address)
    (dep : Address) (ex : Option ExistingContracts) :
    SeqTrace (deployTrace v cfg ms dep ex) := by
  simp only [deployTrace]
  exact ((((((((((seqTrace_dcTrace v cfg ex (ms.getD dep)).append
    (seqTrace_proxyTrace v ms cfg _)).append
    (seqTrace_childTrace v ms _)).append
    (seqTrace_uniTrace v.uniRouters ms cfg.uniswap _)).append
    (seqTrace_uniTrace v.uniV3Routers ms cfg.uniswapV3 _)).append
    (seqTrace_kyberProxyTrace v ms cfg.kyberProxy _)).append
    (seqTrace_kyberDmmTrace v ms cfg.kyberDmm _)).append
    (seqTrace_compoundTrace v ms cfg.compound _)).append
    (seqTrace_aaveV1Trace ms cfg.aaveV1 _)).append
    (seqTrace_aaveV2Trace ms cfg.aaveV2 _)).append
    (seqTrace_aaveV2Trace ms cfg.aaveAMM _)

/-- C6: Execution is strictly sequential: in every address-set reconciliation
with both differences non-empty, the removal transaction is submitted and its
confirmation awaited before the addition transaction is submitted; and in the
whole `deploy` run, every deployment's or update transaction's confirmation is
awaited immediately after its submission, before the next step begins. -/
theorem C6_sequential_execution :
    (∀ (v : ChainView) (ms : Option Address) (mk : List Address → Bool → PopTxn)
       (r a : List Address), r ≠ [] → a ≠ [] →
      (updateAddressSet (okChain v) ms mk r a).1
        = [.submit (signTxn ms (mk r false)), .confirmed (signTxn ms (mk r false)),
           .submit (signTxn ms (mk a true)), .confirmed (signTxn ms (mk a true))])
    ∧ (∀ (v : ChainView) (cfg : NetworkCfg) (ms : Option Address) (dep : Address)
        (ex : Option ExistingContracts),
      SeqTrace (deploy (okChain v) cfg ms dep ex).1) := by
  constructor
  · intro v ms mk r a hr ha
    rw [updateAddressSet_ok]
    simp [reconTrace, hr, ha]
  · intro v cfg ms dep ex
    rw [deploy_ok]
    exact seqTrace_deployTrace v cfg ms dep ex

/-- C6 witness: a concrete reconciliation with one removal and one addition,
and a concrete full deploy run. -/
theorem C6_sequential_execution_witness :
    (updateAddressSet
      (okChain ⟨"0xi", [], [], [], fun _ => "0xp", [], [], "0xk", "0xd", "0xcd",
        fun _ => "0xn", ⟨"0xp1", "0xc1", 0, []⟩, ⟨"0xpr", "0xp2", 0, "0xw", []⟩,
        ⟨"0xpr", "0xp2", 0, "0xw", []⟩⟩)
      none (fun l b => ⟨some "0xu", none, .updateUniRouters l b⟩) ["0xr"] ["0xs"]).1
      = [.submit (signTxn none ⟨some "0xu", none, .updateUniRouters ["0xr"] false⟩),
         .confirmed (signTxn none ⟨some "0xu", none, .updateUniRouters ["0xr"] false⟩),
         .submit (signTxn none ⟨some "0xu", none, .updateUniRouters ["0xs"] true⟩),
         .confirmed (signTxn none ⟨some "0xu", none, .updateUniRouters ["0xs"] true⟩)]
    ∧ SeqTrace (deploy
        (okChain ⟨"0xi", [], [], [], fun _ => "0xp", [], [], "0xk", "0xd", "0xcd",
          fun _ => "0xn", ⟨"0xp1", "0xc1", 0, []⟩, ⟨"0xpr", "0xp2", 0, "0xw", []⟩,
          ⟨"0xpr", "0xp2", 0, "0xw", []⟩⟩)
        ⟨true, ["0xw1"], some ⟨["0xr1"]⟩, none, some ⟨"0xkp"⟩, none,
          some ⟨"0xct", "0xnat", []⟩, some ⟨"0xp1", "0xc1", 0, []⟩, none, none⟩
        none "0xdep" none).1 :=
  ⟨C6_sequential_execution.1 _ none _ ["0xr"] ["0xs"] (by decide) (by decide),
   C6_sequential_execution.2 _ _ none "0xdep" none⟩

/-- Every submitted transaction in the trace was produced by the `executeTxn`
dispatch with the given multisig setting. -/
def SubmitsVia (ms : Option Address) (tr : List Event) : Prop :=
  ∀ st : SignedTxn, Event.submit st ∈ tr → ∃ t : PopTxn, st = signTxn ms t

theorem submitsVia_nil (ms : Option Address) : SubmitsVia ms [] := by
  intro st h
  simp at h

theorem SubmitsVia.join {ms : Option Address} {x y : List Event}
    (hx : SubmitsVia ms x) (hy : SubmitsVia ms y) : SubmitsVia ms (x ++ y) := by
  intro st h
  rcases List.mem_append.1 h with h | h
  · exact hx st h
  · exact hy st h

theorem submitsVia_pair (ms : Option Address) (t : PopTxn) :
    SubmitsVia ms [.submit (signTxn ms t), .confirmed (signTxn ms t)] := by
  intro st h
  simp at h
  exact ⟨t, h⟩

theorem submitsVia_reconTrace (ms : Option Address) (mk : List Address → Bool → PopTxn)
    (r a : List Address) : SubmitsVia ms (reconTrace ms mk r a) := by
  unfold reconTrace
  apply SubmitsVia.join <;> split <;>
    first | exact submitsVia_nil ms | exact submitsVia_pair ms _

theorem submitsVia_implPart (v : ChainView) (ms : Option Address) (c : KrystalContracts) :
    SubmitsVia ms (implPart v ms c) := by
  unfold implPart
  split
  · exact submitsVia_nil ms
  · exact submitsVia_pair ms _

theorem submitsVia_proxyTrace (v : ChainView) (ms : Option Address) (cfg : NetworkCfg)
    (c : KrystalContracts) : SubmitsVia ms (proxyTrace v ms cfg c) :=
  ((submitsVia_implPart v ms c).join (submitsVia_reconTrace ms _ _ _)).join
    (submitsVia_reconTrace ms _ _ _) |>.join (submitsVia_reconTrace ms _ _ _)

theorem submitsVia_childPart (v : ChainView) (ms : Option Address) (p : Address)
    (child : Option Address) : SubmitsVia ms (childPart v ms p child) := by
  unfold childPart
  repeat' split
  all_goals first | exact submitsVia_nil ms | exact submitsVia_pair ms _

theorem submitsVia_childTrace (v : ChainView) (ms : Option Address)
    (c : KrystalContracts) : SubmitsVia ms (childTrace v ms c) := by
  unfold childTrace
  repeat' apply SubmitsVia.join
  all_goals exact submitsVia_childPart v ms _ _

theorem submitsVia_uniTrace (existing : List Address) (ms : Option Address)
    (cfg : Option UniswapConfig) (uni : Option Address) :
    SubmitsVia ms (uniTrace existing ms cfg uni) := by
  unfold uniTrace
  repeat' split
  all_goals first | exact submitsVia_nil ms | exact submitsVia_reconTrace ms _ _ _

theorem submitsVia_kyberProxyTrace (v : ChainView) (ms : Option Address)
    (cfg : Option KyberProxyConfig) (kp : Option Address) :
    SubmitsVia ms (kyberProxyTrace v ms cfg kp) := by
  unfold kyberProxyTrace
  repeat' split
  all_goals first | exact submitsVia_nil ms | exact submitsVia_pair ms _

theorem submitsVia_kyberDmmTrace (v : ChainView) (ms : Option Address)
    (cfg : Option KyberDmmConfig) (kd : Option Address) :
    SubmitsVia ms (kyberDmmTrace v ms cfg kd) := by
  unfold kyberDmmTrace
  repeat' split
  all_goals first | exact submitsVia_nil ms | exact submitsVia_pair ms _

theorem submitsVia_compoundTrace (v : ChainView) (ms : Option Address)
    (cfg : Option CompoundConfig) (cl : Option Address) :
    SubmitsVia ms (compoundTrace v ms cfg cl) := by
  unfold compoundTrace
  repeat' split
  all_goals first | exact submitsVia_nil ms | exact submitsVia_pair ms _

theorem submitsVia_aaveV1Trace (ms : Option Address) (cfg : Option AaveV1Config)
    (al : Option Address) : SubmitsVia ms (aaveV1Trace ms cfg al) := by
  unfold aaveV1Trace
  repeat' split
  all_goals first | exact submitsVia_nil ms | exact submitsVia_pair ms _

theorem submitsVia_aaveV2Trace (ms : Option Address) (cfg : Option AaveV2Config)
    (al : Option Address) : SubmitsVia ms (aaveV2Trace ms cfg al) := by
  unfold aaveV2Trace
  repeat' split
  all_goals first | exact submitsVia_nil ms | exact submitsVia_pair ms _

theorem submitsVia_deployPart (ms : Option Address) (v : ChainView) (av : Bool)
    (name : String) (exAddr : Option Address) (args : List Arg) :
    SubmitsVia ms (deployPart v av name exAddr args) := by
  intro st h
  unfold deployPart at h
  rcases exAddr <;> rcases av <;> simp at h

theorem submitsVia_optDeployPart {β : Type} (ms : Option Address) (v : ChainView)
    (av : Bool) (name : String) (exAddr : Option Address) (cfgOn : Option β)
    (args : β → List Arg) : SubmitsVia ms (optDeployPart v av name exAddr cfgOn args) := by
  unfold optDeployPart
  repeat' split
  all_goals first | exact submitsVia_nil ms | exact submitsVia_deployPart ms v _ _ _ _

theorem submitsVia_dcTrace (ms : Option Address) (v : ChainView) (cfg : NetworkCfg)
    (ex : Option ExistingContracts) (admin : Address) :
    SubmitsVia ms (dcTrace v cfg ex admin) := by
  unfold dcTrace
  repeat' apply SubmitsVia.join
  all_goals first
    | exact submitsVia_deployPart ms v _ _ _ _
    | exact submitsVia_optDeployPart ms v _ _ _ _ _

theorem submitsVia_deployTrace (v : ChainView) (cfg : NetworkCfg) (ms : Option Address)
    (dep : Address) (ex : Option ExistingContracts) :
    SubmitsVia ms (deployTrace v cfg ms dep ex) := by
  simp only [deployTrace]
  exact ((((((((((submitsVia_dcTrace ms v cfg ex (ms.getD dep)).join
    (submitsVia_proxyTrace v ms cfg _)).join
    (submitsVia_childTrace v ms _)).join
    (submitsVia_uniTrace v.uniRouters ms cfg.uniswap _)).join
    (submitsVia_uniTrace v.uniV3Routers ms cfg.uniswapV3 _)).join
    (submitsVia_kyberProxyTrace v ms cfg.kyberProxy _)).join
    (submitsVia_kyberDmmTrace v ms cfg.kyberDmm _)).join
    (submitsVia_compoundTrace v ms cfg.compound _)).join
    (submitsVia_aaveV1Trace ms cfg.aaveV1 _)).join
    (submitsVia_aaveV2Trace ms cfg.aaveV2 _)).join
    (submitsVia_aaveV2Trace ms cfg.aaveAMM _)

/-- C7: For every state-changing transaction produced by the script, the
dispatch is uniform: with a multisig configured, `executeTxn` relays the
populated transaction through the Gnosis Safe as a `Call` operation carrying
the transaction's `to` (defaulting to the zero address), `value` (defaulting
to `'0'`) and `data`; with no multisig it sends the transaction directly from
the first signer; and every submission event of a whole `deploy` run is the
image of a populated transaction under this same dispatch. -/
theorem C7_multisig_dispatch :
    (∀ (v : ChainView) (safe : Address) (txn : PopTxn),
      executeTxn (okChain v) (some safe) txn
        = ([.submit (.viaSafe safe .Call (txn.toAddr.getD zeroAddress)
              ((txn.value.map (fun n => toString n)).getD "0") txn.data)],
           .ok (.viaSafe safe .Call (txn.toAddr.getD zeroAddress)
              ((txn.value.map (fun n => toString n)).getD "0") txn.data)))
    ∧ (∀ (v : ChainView) (txn : PopTxn),
      executeTxn (okChain v) none txn = ([.submit (.direct 0 txn)], .ok (.direct 0 txn)))
    ∧ (∀ (v : ChainView) (cfg : NetworkCfg) (ms : Option Address) (dep : Address)
        (ex : Option ExistingContracts),
      SubmitsVia ms (deploy (okChain v) cfg ms dep ex).1) := by
  refine ⟨fun v safe txn => rfl, fun v txn => rfl, ?_⟩
  intro v cfg ms dep ex
  rw [deploy_ok]
  exact submitsVia_deployTrace v cfg ms dep ex

/-- C7 witness: the dispatch at a concrete transaction for both multisig
settings, and a concrete full run. -/
theorem C7_multisig_dispatch_witness :
    executeTxn
      (okChain ⟨"0xi", [], [], [], fun _ => "0xp", [], [], "0xk", "0xd", "0xcd",
        fun _ => "0xn", ⟨"0xp1", "0xc1", 0, []⟩, ⟨"0xpr", "0xp2", 0, "0xw", []⟩,
        ⟨"0xpr", "0xp2", 0, "0xw", []⟩⟩)
      (some "0xSafe") ⟨some "0xTo", none, .updateKyberProxy "0xK"⟩
      = ([.submit (.viaSafe "0xSafe" .Call "0xTo" "0" (.updateKyberProxy "0xK"))],
         .ok (.viaSafe "0xSafe" .Call "0xTo" "0" (.updateKyberProxy "0xK")))
    ∧ executeTxn
        (okChain ⟨"0xi", [], [], [], fun _ => "0xp", [], [], "0xk", "0xd", "0xcd",
          fun _ => "0xn", ⟨"0xp1", "0xc1", 0, []⟩, ⟨"0xpr", "0xp2", 0, "0xw", []⟩,
          ⟨"0xpr", "0xp2", 0, "0xw", []⟩⟩)
        none ⟨some "0xTo", none, .updateKyberProxy "0xK"⟩
        = ([.submit (.direct 0 ⟨some "0xTo", none, .updateKyberProxy "0xK"⟩)],
           .ok (.direct 0 ⟨some "0xTo", none, .updateKyberProxy "0xK"⟩))
    ∧ SubmitsVia (some "0xSafe")
        (deploy
          (okChain ⟨"0xi", [], [], [], fun _ => "0xp", [], [], "0xk", "0xd", "0xcd",
            fun _ => "0xn", ⟨"0xp1", "0xc1", 0, []⟩, ⟨"0xpr", "0xp2", 0, "0xw", []⟩,
            ⟨"0xpr", "0xp2", 0, "0xw", []⟩⟩)
          ⟨true, ["0xw1"], some ⟨["0xr1"]⟩, none, some ⟨"0xkp"⟩, none,
            some ⟨"0xct", "0xnat", []⟩, some ⟨"0xp1", "0xc1", 0, []⟩, none, none⟩
          (some "0xSafe") "0xdep" none).1 :=
  ⟨C7_multisig_dispatch.1 _ "0xSafe" _, C7_multisig_dispatch.2.1 _ _,
   C7_multisig_dispatch.2.2 _ _ (some "0xSafe") "0xdep" none⟩

/-! ### `convertToAddressObject` (deployLogic.ts:545-559) -/

/-- A JS value in the domain `convertToAddressObject` is applied to:
`undefined`, a `Contract` (represented by its address), an array, or a plain
record. -/
inductive JsVal where
  | undef
  | contract (addr : Address)
  | arr (xs : List JsVal)
  | obj (fields : List (String × JsVal))

/-- Result values of the conversion: contracts replaced by address strings. -/
inductive AddrVal where
  | undef
  | str (a : Address)
  | arr (xs : List AddrVal)
  | obj (fields : List (String × AddrVal))

mutual

/-- JS `ToPropertyKey` (via `ToString`) on these values: `undefined` and
objects stringify to `"undefined"` and `"[object Object]"`, an array to the
comma-join of its elements with `undefined` joined as the empty string. -/
def toPropertyKey : JsVal → String
  | .undef => "undefined"
  | .contract _ => "[object Object]"
  | .obj _ => "[object Object]"
  | .arr xs => String.intercalate "," (joinParts xs)

/-- `Array.prototype.join` parts: `undefined` becomes the empty string. -/
def joinParts : List JsVal → List String
  | [] => []
  | .undef :: rest => "" :: joinParts rest
  | v :: rest => toPropertyKey v :: joinParts rest

end

/-- Parse a property-key string as an array index: all digits and non-empty,
else `none`. -/
def parseIndex? (s : String) : Option Nat :=
  if s.data ≠ [] ∧ s.data.all Char.isDigit then
    some (s.data.foldl (fun n c => n * 10 + (c.toNat - 48)) 0)
  else none

/-- JS array indexing `xs[k]` where `k` is itself a value: the property key is
the string `toPropertyKey k`; a numeric key selects the element and any other
key is absent on the array, yielding `undefined`. -/
def jsIndex (xs : List JsVal) (k : JsVal) : JsVal :=
  match parseIndex? (toPropertyKey k) with
  | some i => xs.getD i .undef
  | none => .undef

theorem sizeOf_jsIndex (xs : List JsVal) (k : JsVal) :
    sizeOf (jsIndex xs k) < 1 + sizeOf xs := by
  have hxs : 1 ≤ sizeOf xs := by cases xs <;> simp_arith
  unfold jsIndex
  cases parseIndex? (toPropertyKey k) with
  | none => simp_arith; omega
  | some i =>
      simp only
      rcases h2 : xs[i]? with _ | a
      · rw [List.getD_eq_getElem?_getD, h2]
        simp_arith
        omega
      · rw [List.getD_eq_getElem?_getD, h2]
        have := List.sizeOf_lt_of_mem (List.getElem?_mem h2)
        simp_arith
        omega

/-- `convertToAddressObject` (deployLogic.ts:545-559): `undefined` is returned
as is; a `Contract` becomes its address; for an array, the code maps
`(k) => convertToAddressObject(obj[k])` — indexing the array by the *element*
`k`, not by an index; for a record, it recurses on the values keyed by the
record's own keys. -/
def convertToAddressObject : JsVal → AddrVal
  | .undef => .undef
  | .contract a => .str a
  | .arr xs => .arr (xs.map (fun k => convertToAddressObject (jsIndex xs k)))
  | .obj fs => .obj (fs.attach.map (fun kv => (kv.1.1, convertToAddressObject kv.1.2)))
termination_by v => sizeOf v
decreasing_by
  · have h := sizeOf_jsIndex xs k
    simp_arith
    omega
  · have h := List.sizeOf_lt_of_mem kv.2
    have h2 : sizeOf kv.1.2 < sizeOf kv.1 := by
      rcases kv with ⟨⟨k1, v1⟩, hm⟩
      simp_arith
    simp_arith
    omega

/-- C8: `convertToAddressObject` preserves record shape and maps contracts in
records to their addresses; but for an array of contracts the array branch
indexes the array by the element itself (`obj[k]` with `k` the element), which
is `undefined`, so the claimed array of addresses is actually an array of
`undefined` of the same length. -/
theorem C8_convertToAddressObject_array_bug :
    convertToAddressObject (.arr [.contract "0xabc"]) = .arr [.undef]
    ∧ convertToAddressObject (.obj [("uniSwap", .contract "0xabc")])
        = .obj [("uniSwap", .str "0xabc")] := by
  constructor
  · have h : jsIndex [JsVal.contract "0xabc"] (JsVal.contract "0xabc") = JsVal.undef := by
      unfold jsIndex
      rw [show toPropertyKey (JsVal.contract "0xabc") = "[object Object]" from by
        simp [toPropertyKey]]
      rfl
    rw [convertToAddressObject]
    simp [h, convertToAddressObject]
  · rw [convertToAddressObject]
    simp [List.attach, List.attachWith, List.pmap, convertToAddressObject]

end KrystalDeploy
